import Mathlib

/-!
Verification development for the display-list flattening engine in
`gfx/webrender/src/frame.rs`.

Layout scalars (the Rust code uses `f32`) are modelled as rationals `ℚ`;
all concrete inputs used below are exactly representable in `f32`, and no
claim under study concerns rounding behaviour.  Machine integers (`u32`,
`u16`) are modelled as `ℕ`, with an explicit `% 2 ^ 32` where the source
performs wrapping arithmetic.  External collaborators (the frame builder,
the clip-scroll tree, the `api`/`euclid`/`util` crates) are not part of the
source under `src/`; where one of their operations is needed it is modelled
from the specification and marked `Modelled from the spec:` in its doc
comment.  Builder calls are recorded as an operation log (`Op`), which is
the observable output of the flattening engine.
-/

/-! ## Basic geometry (euclid `TypedRect` / `TypedSize2D` / vectors, over ℚ) -/

/-- A 2-d vector / point in layer space (`LayerVector2D`, `LayerPoint`). -/
abbrev Vec2 : Type := ℚ × ℚ

/-- A 2-d size (`LayerSize`). -/
structure SizeQ where
  w : ℚ
  h : ℚ
deriving DecidableEq

/-- An axis-aligned rectangle, origin plus size (`LayerRect`). -/
structure RectQ where
  x : ℚ
  y : ℚ
  w : ℚ
  h : ℚ
deriving DecidableEq

/-- The origin of a rectangle as a vector. -/
def RectQ.origin (r : RectQ) : Vec2 := (r.x, r.y)

/-- Translation of a rectangle by a vector (euclid `TypedRect::translate`). -/
def RectQ.translate (r : RectQ) (v : Vec2) : RectQ :=
  ⟨r.x + v.1, r.y + v.2, r.w, r.h⟩

/-- euclid `TypedRect::intersects`: strict overlap (touching rectangles and
degenerate rectangles do not intersect). -/
def RectQ.intersects (a b : RectQ) : Prop :=
  a.x < b.x + b.w ∧ b.x < a.x + a.w ∧ a.y < b.y + b.h ∧ b.y < a.y + a.h

instance : DecidablePred fun p : RectQ × RectQ => p.1.intersects p.2 :=
  fun _ => by unfold RectQ.intersects; infer_instance

instance (a b : RectQ) : Decidable (a.intersects b) := by
  unfold RectQ.intersects; infer_instance

/-- euclid `TypedRect::intersection`: `none` when the rectangles do not
(strictly) overlap, otherwise the common rectangle. -/
def RectQ.intersection (a b : RectQ) : Option RectQ :=
  if a.intersects b then
    let x0 := max a.x b.x
    let y0 := max a.y b.y
    let x1 := min (a.x + a.w) (b.x + b.w)
    let y1 := min (a.y + a.h) (b.y + b.h)
    some ⟨x0, y0, x1 - x0, y1 - y0⟩
  else none

/-- Membership of a point in a rectangle, closed on all sides. -/
def RectQ.memPt (r : RectQ) (p : Vec2) : Prop :=
  r.x ≤ p.1 ∧ p.1 ≤ r.x + r.w ∧ r.y ≤ p.2 ∧ p.2 ≤ r.y + r.h

/-- `a` is contained in `b`. -/
def RectQ.containedIn (a b : RectQ) : Prop :=
  b.x ≤ a.x ∧ a.x + a.w ≤ b.x + b.w ∧ b.y ≤ a.y ∧ a.y + a.h ≤ b.y + b.h

instance (a b : RectQ) : Decidable (a.containedIn b) := by
  unfold RectQ.containedIn; infer_instance

/-- The interiors of `a` and `b` are disjoint (no overlapping area). -/
def RectQ.interiorDisjoint (a b : RectQ) : Prop :=
  a.x + a.w ≤ b.x ∨ b.x + b.w ≤ a.x ∨ a.y + a.h ≤ b.y ∨ b.y + b.h ≤ a.y

instance (a b : RectQ) : Decidable (a.interiorDisjoint b) := by
  unfold RectQ.interiorDisjoint; infer_instance

/-- A colour with straight alpha (`ColorF`). -/
structure ColorF where
  r : ℚ
  g : ℚ
  b : ℚ
  a : ℚ
deriving DecidableEq

/-! ## Image display items and the tiling decomposer

This embeds `decompose_image`, `decompose_image_row`, `decompose_tiled_image`
and `add_tile_primitive` (frame.rs:796-1096).  In the source these methods
push image primitives into the frame builder; here each is a pure function
returning the list of image primitives it emits, in emission order.
-/

/-- The fields of an `ImageDisplayItem` that the decomposer reads
(`stretch_size`, `tile_spacing`) plus the image key. -/
structure ImageItem where
  imageKey : ℕ
  stretchSize : SizeQ
  tileSpacing : SizeQ
deriving DecidableEq

/-- One image primitive emitted by `add_tile_primitive` (frame.rs:1035-1096):
the final (intersected) rectangle, the stretched size passed to `add_image`,
the texture-cache tile offset, and the shader-repeat decisions made by
`decompose_tiled_image` (frame.rs:942-943) that shaped this primitive. -/
structure TilePrim where
  rect : RectQ
  stretchedSize : SizeQ
  tileOffset : ℕ × ℕ
  shaderRepeatX : Bool
  shaderRepeatY : Bool
deriving DecidableEq

/-- `add_tile_primitive` (frame.rs:1035-1096).  Returns `none` when the
candidate rectangle does not intersect the item rectangle (frame.rs:1082),
in which case the source emits nothing.  The debug assertions
`assert_eq!(tile_offset.x, 0)` / `assert_eq!(tile_offset.y, 0)`
(frame.rs:1072, 1077) are not modelled; the claims about shader repetition
establish that the offsets are indeed zero there. -/
def addTilePrimitive (itemRect : RectQ) (tileOffset : ℕ × ℕ)
    (stretchedTileSize : SizeQ) (ratioW ratioH : ℚ)
    (shaderRepeatX shaderRepeatY : Bool) : Option TilePrim :=
  let stretchedSize : SizeQ :=
    ⟨stretchedTileSize.w * ratioW, stretchedTileSize.h * ratioH⟩
  let primRect : RectQ :=
    ⟨itemRect.x + tileOffset.1 * stretchedTileSize.w,
     itemRect.y + tileOffset.2 * stretchedTileSize.h,
     stretchedSize.w, stretchedSize.h⟩
  let primRect := if shaderRepeatX then { primRect with w := itemRect.w } else primRect
  let primRect := if shaderRepeatY then { primRect with h := itemRect.h } else primRect
  (primRect.intersection itemRect).map fun r =>
    ⟨r, stretchedSize, tileOffset, shaderRepeatX, shaderRepeatY⟩

/-- One candidate tile of the grid stage: its tile offset and the
width/height coverage ratios passed to `add_tile_primitive`. -/
structure TileDesc where
  tx : ℕ
  ty : ℕ
  ratioW : ℚ
  ratioH : ℚ
deriving DecidableEq

/-- The sequence of `add_tile_primitive` calls issued by the loops of
`decompose_tiled_image` (frame.rs:968-1032), in source order: for each row
the full tiles then (if a horizontal leftover exists) the right-edge tile;
then, if a vertical leftover exists, the bottom-edge tiles and finally (if
both leftovers exist) the corner tile. -/
def tileDescriptors (numTilesX numTilesY leftoverW leftoverH tileSize : ℕ) :
    List TileDesc :=
  ((List.range numTilesY).flatMap fun ty =>
    ((List.range numTilesX).map fun tx => ⟨tx, ty, 1, 1⟩) ++
    (if leftoverW ≠ 0 then
      [⟨numTilesX, ty, (leftoverW : ℚ) / (tileSize : ℚ), 1⟩]
    else [])) ++
  (if leftoverH ≠ 0 then
    ((List.range numTilesX).map fun tx =>
      ⟨tx, numTilesY, 1, (leftoverH : ℚ) / (tileSize : ℚ)⟩) ++
    (if leftoverW ≠ 0 then
      [⟨numTilesX, numTilesY, (leftoverW : ℚ) / (tileSize : ℚ),
        (leftoverH : ℚ) / (tileSize : ℚ)⟩]
    else [])
  else [])

/-- `decompose_tiled_image` (frame.rs:894-1033).  `imageSize` is the physical
image size in pixels (`u32` components), `tileSize` the texture-cache tile
size.  The item rectangle is `itemRect` (the `prim_info.rect` of the caller,
possibly already restricted by the row/segment stages).  The tile counts are
`(image_size.width / tile_size) as u16` (frame.rs:949-950): a `u32` division
followed by a truncating cast to `u16`, modelled as `/ tileSize % 2 ^ 16`.
When `tileSize = 0` the source panics on the integer divisions
(frame.rs:949-950, 965-966); the model is total there, so every theorem
about general image/tile sizes assumes `tileSize ≠ 0`. -/
def decomposeTiledImage (itemRect : RectQ) (info : ImageItem)
    (imageSize : ℕ × ℕ) (tileSize : ℕ) : List TilePrim :=
  let shaderRepeatX : Bool :=
    decide (info.stretchSize.w < itemRect.w) && ! decide (tileSize < imageSize.1)
  let shaderRepeatY : Bool :=
    decide (info.stretchSize.h < itemRect.h) && ! decide (tileSize < imageSize.2)
  let numTilesX := imageSize.1 / tileSize % 2 ^ 16
  let numTilesY := imageSize.2 / tileSize % 2 ^ 16
  let imgDw : ℚ := (tileSize : ℚ) / (imageSize.1 : ℚ)
  let imgDh : ℚ := (tileSize : ℚ) / (imageSize.2 : ℚ)
  let stretchedTileSize : SizeQ :=
    ⟨imgDw * info.stretchSize.w, imgDh * info.stretchSize.h⟩
  let leftoverW := imageSize.1 % tileSize
  let leftoverH := imageSize.2 % tileSize
  (tileDescriptors numTilesX numTilesY leftoverW leftoverH tileSize).filterMap
    fun d =>
      addTilePrimitive itemRect (d.tx, d.ty) stretchedTileSize d.ratioW d.ratioH
        shaderRepeatX shaderRepeatY

/-- `decompose_image_row` (frame.rs:845-892): horizontal repetition split.
When the image fits in one tile horizontally and there is no horizontal
spacing, fall through to the grid stage; otherwise emit one grid
decomposition per horizontal repetition, clipped to the item rectangle.
The `f32` cast `as u32` saturates negative values to zero, matched by
`Int.toNat`. -/
def decomposeImageRow (itemRect : RectQ) (info : ImageItem)
    (imageSize : ℕ × ℕ) (tileSize : ℕ) : List TilePrim :=
  if imageSize.1 ≤ tileSize ∧ info.tileSpacing.w = 0 then
    decomposeTiledImage itemRect info imageSize tileSize
  else
    let layoutStride := info.stretchSize.w + info.tileSpacing.w
    let numRepetitions := (⌈itemRect.w / layoutStride⌉).toNat
    (List.range numRepetitions).flatMap fun i =>
      match RectQ.intersection
          ⟨itemRect.x + (i : ℚ) * layoutStride, itemRect.y,
           info.stretchSize.w, itemRect.h⟩ itemRect with
      | some decomposedRect => decomposeTiledImage decomposedRect info imageSize tileSize
      | none => []

/-- `decompose_image` (frame.rs:796-843): vertical repetition split, the
entry point of the decomposer. -/
def decomposeImage (itemRect : RectQ) (info : ImageItem)
    (imageSize : ℕ × ℕ) (tileSize : ℕ) : List TilePrim :=
  if imageSize.2 ≤ tileSize ∧ info.tileSpacing.h = 0 then
    decomposeImageRow itemRect info imageSize tileSize
  else
    let layoutStride := info.stretchSize.h + info.tileSpacing.h
    let numRepetitions := (⌈itemRect.h / layoutStride⌉).toNat
    (List.range numRepetitions).flatMap fun i =>
      match RectQ.intersection
          ⟨itemRect.x, itemRect.y + (i : ℚ) * layoutStride,
           itemRect.w, info.stretchSize.h⟩ itemRect with
      | some rowRect => decomposeImageRow rowRect info imageSize tileSize
      | none => []

/-! ## Identifiers, clips and primitive metadata (`api` crate types)

The `api` crate is not under `src/`; these types are modelled from the spec
(§3 data model): `ClipId` is scoped to a pipeline and distinguishes the
well-known root scroll node; `ClipAndScrollInfo` pairs a scroll node with an
optional clip node.
-/

/-- Pipeline identifiers, modelled as naturals. -/
abbrev PipelineId : Type := ℕ

/-- Modelled from the spec: `ClipId` identifies a clip or scroll node,
scoped to a pipeline; `dynamic` ids are generated for dynamically added
nodes (reference frames). -/
inductive ClipId where
  | clip (idx : ℕ) (pipeline : PipelineId)
  | dynamic (idx : ℕ) (pipeline : PipelineId)
deriving DecidableEq

/-- The well-known root scroll node of a pipeline. -/
def ClipId.rootScrollNode (pipeline : PipelineId) : ClipId :=
  ClipId.clip 0 pipeline

/-- `ClipAndScrollInfo`: the (clip node, scroll node) association attached to
every emitted primitive. -/
structure ClipAndScrollInfo where
  scrollNodeId : ClipId
  clipNodeId : Option ClipId
deriving DecidableEq

/-- `ClipAndScrollInfo::simple`. -/
def ClipAndScrollInfo.simple (id : ClipId) : ClipAndScrollInfo :=
  ⟨id, none⟩

/-- Border radii of a rounded-rectangle clip region. -/
structure BorderRadius where
  topLeft : SizeQ
  topRight : SizeQ
  bottomLeft : SizeQ
  bottomRight : SizeQ
deriving DecidableEq

/-- `ComplexClipRegion`: a rectangle with rounded corners. -/
structure ComplexClipRegion where
  rect : RectQ
  radii : BorderRadius
deriving DecidableEq

/-- `LocalClip`: either a plain clip rectangle or a rectangle together with
a rounded-rectangle region. -/
inductive LocalClip where
  | rect (r : RectQ)
  | roundedRect (r : RectQ) (region : ComplexClipRegion)
deriving DecidableEq

/-- `LocalClip::clip_rect`: the outer (non-rounded) clip rectangle bound. -/
def LocalClip.clipRect : LocalClip → RectQ
  | .rect r => r
  | .roundedRect r _ => r

/-- `LayerPrimitiveInfo`: per-item geometry (rect, local clip, backface
visibility, hit-testing tag). -/
structure PrimInfo where
  rect : RectQ
  localClip : LocalClip
  isBackfaceVisible : Bool
  tag : Option ℕ
deriving DecidableEq

/-- `LayerPrimitiveInfo::new(rect)`.  Modelled from the spec: the local clip
defaults to the rectangle itself, backface-visible, no tag. -/
def PrimInfo.new (r : RectQ) : PrimInfo :=
  ⟨r, LocalClip.rect r, true, none⟩

/-- `get_layer_primitive_info(offset)` (api crate).  Modelled from the spec
(§4.2): the local rect translated by the accumulated offset, plus the item's
local clip and backface-visibility flag. -/
def PrimInfo.translate (info : PrimInfo) (off : Vec2) : PrimInfo :=
  { info with rect := info.rect.translate off }

/-- `PrimitiveFlags` (tiling crate): either none or a scrollbar marker
carrying the scroll node it tracks and a width. -/
inductive PrimitiveFlags where
  | noFlags
  | scrollbar (id : ClipId) (width : ℚ)
deriving DecidableEq

/-! ## Rounded-clip helpers (`util.rs`, not under `src/`) -/

/-- Modelled from the spec: `ComplexClipRegionHelpers::get_inner_rect_full`
(util.rs, not under `src/`) — the maximal inner axis-aligned rectangle of a
rounded-rectangle region not touched by any rounding, `none` when the
rounding leaves no such rectangle. -/
def getInnerRectFull (region : ComplexClipRegion) : Option RectQ :=
  let left := max region.radii.topLeft.w region.radii.bottomLeft.w
  let top := max region.radii.topLeft.h region.radii.topRight.h
  let right := max region.radii.topRight.w region.radii.bottomRight.w
  let bottom := max region.radii.bottomLeft.h region.radii.bottomRight.h
  if left + right ≤ region.rect.w ∧ top + bottom ≤ region.rect.h then
    some ⟨region.rect.x + left, region.rect.y + top,
          region.rect.w - left - right, region.rect.h - top - bottom⟩
  else none

/-- Modelled from the spec: `subtract_rect` (util.rs, not under `src/`) —
the regions remaining when `inner` is subtracted from `rect`, as up to four
bands (top, bottom, left, right), empty bands omitted. -/
def subtractRect (rect inner : RectQ) : List RectQ :=
  match rect.intersection inner with
  | none => [rect]
  | some i =>
    (if rect.y < i.y then [⟨rect.x, rect.y, rect.w, i.y - rect.y⟩] else []) ++
    (if i.y + i.h < rect.y + rect.h then
      [⟨rect.x, i.y + i.h, rect.w, rect.y + rect.h - (i.y + i.h)⟩] else []) ++
    (if rect.x < i.x then [⟨rect.x, i.y, i.x - rect.x, i.h⟩] else []) ++
    (if i.x + i.w < rect.x + rect.w then
      [⟨i.x + i.w, i.y, rect.x + rect.w - (i.x + i.w), i.h⟩] else [])

/-! ## Opaque-rectangle clip splitting (frame.rs:1157-1210) -/

/-- `try_to_add_rectangle_splitting_on_clip` (frame.rs:1157-1210).  In the
source the function pushes the primitives into the builder and returns a
`bool`; here it returns `none` when the optimization does not apply (the
caller then emits a single masked primitive) and `some prims` with the
emitted primitives' infos, in emission order, when it does.  The emitted
solid rectangles all share the caller's `clip_and_scroll` and colour, so
only the `LayerPrimitiveInfo` of each is returned. -/
def tryToAddRectangleSplittingOnClip (info : PrimInfo) (color : ColorF) :
    Option (List PrimInfo) :=
  if color.a ≠ 1 then none
  else
    match info.localClip with
    | LocalClip.rect _ => none
    | LocalClip.roundedRect _ region =>
      match getInnerRectFull region with
      | none => none
      | some innerUnclippedRect =>
        let clippedRects := subtractRect info.rect innerUnclippedRect
        let primInfo : PrimInfo :=
          ⟨innerUnclippedRect, LocalClip.rect info.localClip.clipRect,
           info.isBackfaceVisible, none⟩
        some (primInfo ::
          clippedRects.map fun clippedRect => { info with rect := clippedRect })

/-! ## Stacking contexts and display items -/

/-- `ScrollPolicy`. -/
inductive ScrollPolicy where
  | scrollable
  | fixed
deriving DecidableEq

/-- `TransformStyle`. -/
inductive TransformStyle where
  | flat
  | preserve3D
deriving DecidableEq

/-- The fields of a `StackingContext` display item that drive the flattening
control flow.  The transform and perspective are property bindings resolved
opaquely (spec §4.3.2); only their presence matters to the traversal, so
their payloads are not modelled.  Composite filters and the mix-blend mode
are resolved (frame.rs:291-307) but only forwarded to the builder, so they
are not modelled either. -/
structure StackingContextM where
  scrollPolicy : ScrollPolicy
  transform : Option Unit
  perspective : Option Unit
  transformStyle : TransformStyle
deriving DecidableEq

/-- A display item, in tree form: `sc` corresponds to a
`PushStackingContext` item together with the sub-range of items up to its
matching `PopStackingContext` (obtained via `sub_iter` in the source).
The item kinds the claims under study exercise are modelled: solid
rectangles, images, and stacking contexts.  Every item carries its
`ClipAndScrollInfo` and common geometry (`LayerPrimitiveInfo`). -/
inductive Item where
  | rect (info : PrimInfo) (color : ColorF) (cs : ClipAndScrollInfo)
  | image (info : PrimInfo) (img : ImageItem) (cs : ClipAndScrollInfo)
  | sc (info : PrimInfo) (context : StackingContextM) (cs : ClipAndScrollInfo)
      (children : List Item)

/-! ## The builder operation log and flattening state -/

/-- One call into the frame builder (the external collaborator of spec §6),
recorded in call order.  This log is the observable output of the
flattening engine. -/
inductive Op where
  | pushRoot (pipeline : PipelineId)
  | setupViewportOffset
  | pushStackingContext (offset : Vec2) (pipeline : PipelineId)
      (transformStyle : TransformStyle) (isBackfaceVisible : Bool) (isRoot : Bool)
  | popStackingContext
  | pushReferenceFrame (id : ClipId) (origin : Vec2)
  | popReferenceFrame
  | notifyWaitingForRootStackingContext
  | addSolidRectangle (cs : ClipAndScrollInfo) (info : PrimInfo)
      (color : ColorF) (flags : PrimitiveFlags)
  | addImage (cs : ClipAndScrollInfo) (info : PrimInfo) (stretchSize : SizeQ)
      (tileSpacing : SizeQ) (tileOffset : Option (ℕ × ℕ))
deriving DecidableEq

/-- Modelled from the spec: the state of the frame builder that the
flattening engine reads back — its reference-frame stack (for
`current_reference_frame_id`) and a counter for generating dynamically
added node ids — plus the op log and the build inputs recorded at
construction. -/
structure BuilderM where
  refFrames : List ClipId
  nextDynamicId : ℕ
  ops : List Op
  windowSize : ℕ × ℕ
  backgroundColor : Option ColorF
deriving DecidableEq

/-- `FrameBuilder::new`: a fresh builder for this build cycle (the previous
builder is consumed only for allocation recycling, which has no observable
effect modelled here). -/
def BuilderM.new (prevBuilder : Option BuilderM) (windowSize : ℕ × ℕ)
    (backgroundColor : Option ColorF) : BuilderM :=
  let _ := prevBuilder
  ⟨[], 0, [], windowSize, backgroundColor⟩

/-- `current_reference_frame_id` (builder).  The source unwraps a non-empty
stack; the default is irrelevant on all paths exercised by claims. -/
def BuilderM.currentReferenceFrameId (b : BuilderM) : ClipId :=
  b.refFrames.headD (ClipId.dynamic 0 0)

/-- `push_reference_frame` (builder): generates a fresh dynamically-added
node id, pushes it on the reference-frame stack and logs the call;
returns the new id. -/
def BuilderM.pushReferenceFrame (b : BuilderM) (parentId : Option ClipId)
    (pipeline : PipelineId) (origin : Vec2) : ClipId × BuilderM :=
  let _ := parentId
  let id := ClipId.dynamic b.nextDynamicId pipeline
  (id, { b with refFrames := id :: b.refFrames,
                nextDynamicId := b.nextDynamicId + 1,
                ops := b.ops ++ [Op.pushReferenceFrame id origin] })

/-- `pop_reference_frame` (builder). -/
def BuilderM.popReferenceFrame (b : BuilderM) : BuilderM :=
  { b with refFrames := b.refFrames.tail, ops := b.ops ++ [Op.popReferenceFrame] }

/-- Modelled from the spec: the slice of clip-scroll-tree state the
flattening engine and frame driver observe — per-node scroll offsets and the
topmost scrolling node id. -/
structure ClipScrollTreeM where
  scrollOffsets : List (ClipId × Vec2)
  topmostScrollingNodeId : ClipId
deriving DecidableEq

/-- `ClipScrollTree::new`. -/
def ClipScrollTreeM.new : ClipScrollTreeM :=
  ⟨[], ClipId.rootScrollNode 0⟩

/-- `ClipScrollTree::drain`: capture the scroll offsets and reset the
per-frame node storage (spec §4.1). -/
def ClipScrollTreeM.drain (t : ClipScrollTreeM) :
    List (ClipId × Vec2) × ClipScrollTreeM :=
  (t.scrollOffsets, { t with scrollOffsets := [] })

/-- The mutable state threaded through the flattening recursion: the
`FlattenContext`'s replacement stack (`replacements`, with the list head as
stack top), the builder, and the clip-scroll tree. -/
structure FlattenState where
  replacements : List (ClipId × ClipId)
  builder : BuilderM
  tree : ClipScrollTreeM
deriving DecidableEq

/-- Append one builder call to the log. -/
def FlattenState.emit (st : FlattenState) (o : Op) : FlattenState :=
  { st with builder := { st.builder with ops := st.builder.ops ++ [o] } }

/-- Append several builder calls to the log. -/
def FlattenState.emitAll (st : FlattenState) (os : List Op) : FlattenState :=
  { st with builder := { st.builder with ops := st.builder.ops ++ os } }

/-- `apply_scroll_frame_id_replacement` (frame.rs:62-67): if the top of the
replacement stack's original id matches, return its substitute; otherwise
return the id unchanged. -/
def applyScrollFrameIdReplacement (replacements : List (ClipId × ClipId))
    (id : ClipId) : ClipId :=
  match replacements with
  | (toReplace, replacement) :: _ => if toReplace = id then replacement else id
  | [] => id

/-- The replacement applied to an item's `ClipAndScrollInfo`
(frame.rs:450-452): only the scroll node id is replaced. -/
def applyReplacementCS (replacements : List (ClipId × ClipId))
    (cs : ClipAndScrollInfo) : ClipAndScrollInfo :=
  { cs with scrollNodeId := applyScrollFrameIdReplacement replacements cs.scrollNodeId }

/-- Pop the replacement stack (`Vec::pop`). -/
def FlattenState.popReplacement (st : FlattenState) : FlattenState :=
  { st with replacements := st.replacements.tail }

/-- A snapshot of the resource cache's tiled-image map: image key to
(image size, tile size). -/
abbrev TiledImageMap : Type := List (ℕ × ((ℕ × ℕ) × ℕ))

/-- Association-list lookup (`HashMap::get`). -/
def lookupA {β : Type} (l : List (ℕ × β)) (k : ℕ) : Option β :=
  match l with
  | [] => none
  | (k2, v) :: rest => if k2 = k then some v else lookupA rest k

/-! ## The flattening engine (frame.rs:273-783)

`flattenItem` embeds `flatten_item` for the modelled item kinds, with the
stacking-context arm embedding `flatten_stacking_context` (frame.rs:273-377)
factored into its three source phases: `scEnterState` (setup,
frame.rs:309-358), the recursion into the sub-items (frame.rs:360-365,
receiving the offset `scChildOffset`), and `scExitState` (unwind,
frame.rs:367-377).  `flattenItems` embeds `flatten_items` (the tree form of
the display list already accounts for `PopStackingContext` terminating a
sub-traversal).  Iframe recursion into other pipelines and clip/scroll-node
registration are not exercised by the claims under study and are not
modelled.
-/

/-- The reference-frame-relative offset handed to the recursion into a
stacking context's children (frame.rs:318-349): reset to zero when the
context carries a transform or a perspective (it establishes a reference
frame), otherwise the entry offset translated by the context's local
rectangle origin (frame.rs:343-348). -/
def scChildOffset (context : StackingContextM) (off : Vec2) (bounds : RectQ) :
    Vec2 :=
  if context.transform.isSome || context.perspective.isSome then (0, 0)
  else (off.1 + bounds.origin.1, off.2 + bounds.origin.2)

/-- The setup phase of `flatten_stacking_context` (frame.rs:309-358), run
before recursing into the children: push the fixed-position replacement when
the scroll policy is fixed (frame.rs:309-314), create the reference frame
and push its replacement when a transform or perspective is present
(frame.rs:318-343), and push the builder's stacking context
(frame.rs:351-358) carrying the children's offset. -/
def scEnterState (pid : PipelineId) (context : StackingContextM)
    (contextScrollNodeId : ClipId) (off : Vec2) (bounds : RectQ)
    (isBackfaceVisible : Bool) (st : FlattenState) : FlattenState :=
  let st1 :=
    if context.scrollPolicy = ScrollPolicy.fixed then
      { st with replacements :=
          (contextScrollNodeId, st.builder.currentReferenceFrameId) :: st.replacements }
    else st
  let isReferenceFrame := context.transform.isSome || context.perspective.isSome
  let st2 :=
    if isReferenceFrame then
      let origin := (off.1 + bounds.origin.1, off.2 + bounds.origin.2)
      let clipId0 := applyScrollFrameIdReplacement st1.replacements contextScrollNodeId
      let idAndBuilder := st1.builder.pushReferenceFrame (some clipId0) pid origin
      { st1 with builder := idAndBuilder.2,
                 replacements := (contextScrollNodeId, idAndBuilder.1) :: st1.replacements }
    else st1
  st2.emit (Op.pushStackingContext (scChildOffset context off bounds) pid
    context.transformStyle isBackfaceVisible false)

/-- The unwind phase of `flatten_stacking_context` (frame.rs:367-377), run
after the children's recursion produced `st4`: pop the replacement pushed
for a fixed scroll policy (frame.rs:367-369), pop the replacement and the
builder reference frame pushed for a reference frame (frame.rs:371-374),
and pop the builder's stacking context last (frame.rs:376). -/
def scExitState (context : StackingContextM) (st4 : FlattenState) :
    FlattenState :=
  let st5 :=
    if context.scrollPolicy = ScrollPolicy.fixed then st4.popReplacement else st4
  let st6 :=
    if context.transform.isSome || context.perspective.isSome then
      let st6a := st5.popReplacement
      { st6a with builder := st6a.builder.popReferenceFrame }
    else st5
  st6.emit Op.popStackingContext

mutual

def flattenItem (tm : TiledImageMap) (pid : PipelineId) (off : Vec2)
    (st : FlattenState) : Item → FlattenState
  | .rect info color cs =>
    let cs := applyReplacementCS st.replacements cs
    let primInfo := info.translate off
    match tryToAddRectangleSplittingOnClip primInfo color with
    | some prims =>
      st.emitAll (prims.map fun p => Op.addSolidRectangle cs p color PrimitiveFlags.noFlags)
    | none =>
      st.emit (Op.addSolidRectangle cs primInfo color PrimitiveFlags.noFlags)
  | .image info img cs =>
    let cs := applyReplacementCS st.replacements cs
    let primInfo := info.translate off
    match lookupA tm img.imageKey with
    | some (imageSize, tileSize) =>
      st.emitAll ((decomposeImage primInfo.rect img imageSize tileSize).map fun p =>
        Op.addImage cs { primInfo with rect := p.rect } p.stretchedSize
          img.tileSpacing (some p.tileOffset))
    | none =>
      st.emit (Op.addImage cs primInfo img.stretchSize img.tileSpacing none)
  | .sc info context cs children =>
    -- frame.rs:285-289: skip statically empty stacking contexts.
    if children.isEmpty then st
    else
      -- frame.rs:309-377: setup (with the item's unreplaced scroll node id,
      -- frame.rs:450/604), recursion at the children's offset, unwind.
      scExitState context
        (flattenItems tm pid (scChildOffset context off info.rect)
          (scEnterState pid context cs.scrollNodeId off info.rect
            info.isBackfaceVisible st) children)

def flattenItems (tm : TiledImageMap) (pid : PipelineId) (off : Vec2)
    (st : FlattenState) : List Item → FlattenState
  | [] => st
  | item :: rest => flattenItems tm pid off (flattenItem tm pid off st item) rest

end

/-! ## Root flattening and the frame driver (frame.rs:88-223, 698-754) -/

/-- `DEFAULT_SCROLLBAR_COLOR` (frame.rs:28-33). -/
def defaultScrollbarColor : ColorF :=
  ⟨3/10, 3/10, 3/10, 6/10⟩

/-- The slice of `FrameBuilderConfig` the flattening engine reads. -/
structure FrameBuilderConfig where
  enableScrollbars : Bool
deriving DecidableEq

/-- A pipeline record of the scene (spec §6): epoch, sizes, background
colour, display list. -/
structure ScenePipeline where
  epoch : ℕ
  viewportSize : SizeQ
  contentSize : SizeQ
  backgroundColor : Option ColorF
  displayList : List Item

/-- The scene (spec §6): an optional root pipeline id and the pipeline map. -/
structure Scene where
  rootPipelineId : Option PipelineId
  pipelines : List (PipelineId × ScenePipeline)

/-- The background-rectangle builder calls of `flatten_root`
(frame.rs:722-736): for a pipeline other than the scene's root pipeline
whose record is present and carries a background colour (no alpha test is
made here), one full-content-size solid rectangle at origin zero attached
to the pipeline's root scroll node; nothing otherwise.  For the root
pipeline there is no need for a background rectangle, as it is handled by
the framebuffer clear. -/
def rootBackgroundSeg (scene : Scene) (pid : PipelineId) (contentSize : SizeQ) :
    List Op :=
  if scene.rootPipelineId ≠ some pid then
    match lookupA scene.pipelines pid with
    | some pipeline =>
      match pipeline.backgroundColor with
      | some bgColor =>
        [Op.addSolidRectangle (ClipAndScrollInfo.simple (ClipId.rootScrollNode pid))
          (PrimInfo.new ⟨0, 0, contentSize.w, contentSize.h⟩) bgColor
          PrimitiveFlags.noFlags]
      | none => []
    | none => []
  else []

/-- The debug-scrollbar builder calls of `flatten_root` (frame.rs:741-751):
when the configuration enables scrollbars, one 10x70 solid rectangle at
origin zero in the default scrollbar colour, attached to the pipeline's
root scroll node and flagged as a scrollbar tracking the tree's topmost
scrolling node; nothing otherwise. -/
def rootScrollbarSeg (config : FrameBuilderConfig) (pid : PipelineId)
    (tree : ClipScrollTreeM) : List Op :=
  if config.enableScrollbars then
    [Op.addSolidRectangle (ClipAndScrollInfo.simple (ClipId.rootScrollNode pid))
      (PrimInfo.new ⟨0, 0, 10, 70⟩) defaultScrollbarColor
      (PrimitiveFlags.scrollbar tree.topmostScrollingNodeId 4)]
  else []

/-- `flatten_root` (frame.rs:698-754): push the root stacking context, emit
the background rectangle for non-root pipelines that have one, flatten the
pipeline's items, optionally emit the debug scrollbar (reading the topmost
scrolling node from the tree at that point), pop the root stacking
context. -/
def flattenRoot (scene : Scene) (config : FrameBuilderConfig) (tm : TiledImageMap)
    (pid : PipelineId) (items : List Item) (contentSize : SizeQ)
    (st : FlattenState) : FlattenState :=
  let st := st.emit (Op.pushStackingContext (0, 0) pid TransformStyle.flat true true)
  let st := st.emit Op.notifyWaitingForRootStackingContext
  let st := st.emitAll (rootBackgroundSeg scene pid contentSize)
  let st := flattenItems tm pid (0, 0) st items
  let st := st.emitAll (rootScrollbarSeg config pid st.tree)
  st.emit Op.popStackingContext

/-- The `Frame` struct (frame.rs:89-95): the frame driver's state.  The
`FrameId` is a `u32`; it is modelled as a natural kept below `2 ^ 32` by
wrapping on increment (Rust release-mode overflow semantics). -/
structure Frame where
  clipScrollTree : ClipScrollTreeM
  pipelineEpochMap : List (PipelineId × ℕ)
  id : ℕ
  frameBuilderConfig : FrameBuilderConfig
  frameBuilder : Option BuilderM
deriving DecidableEq

/-- `Frame::new` (frame.rs:98-106). -/
def Frame.new (config : FrameBuilderConfig) : Frame :=
  ⟨ClipScrollTreeM.new, [], 0, config, none⟩

/-- `Frame::reset` (frame.rs:108-115): clear the pipeline-epoch map, advance
the frame id, drain the clip-scroll tree returning the prior scroll states. -/
def Frame.reset (f : Frame) : Frame × List (ClipId × Vec2) :=
  let f := { f with pipelineEpochMap := [] }
  let f := { f with id := (f.id + 1) % 2 ^ 32 }
  let drained := f.clipScrollTree.drain
  ({ f with clipScrollTree := drained.2 }, drained.1)

/-- Iterated `reset`, starting from a fresh frame. -/
def resetIter (config : FrameBuilderConfig) : ℕ → Frame
  | 0 => Frame.new config
  | k + 1 => (Frame.reset (resetIter config k)).1

/-- Insert into the pipeline-epoch map (`HashMap::insert`). -/
def insertA (l : List (PipelineId × ℕ)) (k : PipelineId) (v : ℕ) :
    List (PipelineId × ℕ) :=
  (k, v) :: l.filter fun kv => kv.1 ≠ k

/-- Modelled from the spec: `push_root` (builder) — establishes the root
reference frame and the root scroll node of the root pipeline in the builder
and the tree. -/
def pushRootB (st : FlattenState) (pid : PipelineId)
    (viewportSize contentSize : SizeQ) : FlattenState :=
  let _ := viewportSize
  let _ := contentSize
  { st with
      builder := { st.builder with
        refFrames := [ClipId.dynamic 0 pid],
        nextDynamicId := 1,
        ops := st.builder.ops ++ [Op.pushRoot pid] },
      tree := { st.tree with topmostScrollingNodeId := ClipId.rootScrollNode pid } }

/-- Modelled from the spec: `setup_viewport_offset` (builder) — device-pixel
and viewport offset bookkeeping, with no effect observable by the claims. -/
def setupViewportOffsetB (st : FlattenState) : FlattenState :=
  st.emit Op.setupViewportOffset

/-- Modelled from the spec:
`finalize_and_apply_pending_scroll_offsets` (tree) — reapply the captured
scroll offsets to nodes that still exist by id after rebuilding. -/
def finalizeAndApplyPendingScrollOffsets (t : ClipScrollTreeM)
    (old : List (ClipId × Vec2)) : ClipScrollTreeM :=
  { t with scrollOffsets :=
      t.scrollOffsets.map fun kv =>
        match old.find? fun kv2 => kv2.1 = kv.1 with
        | some kv2 => (kv.1, kv2.2)
        | none => kv }

/-- `Frame::create` (frame.rs:157-223).  Returns the frame driver state
after one build.  A missing root pipeline id, or a missing root pipeline
record, is a benign no-op (frame.rs:165-173).  Degenerate window dimensions
only log an error (frame.rs:175-177).  The `windowSize` components are
device pixels (`u32`). -/
def Frame.create (scene : Scene) (resourceTiledImageMap : TiledImageMap)
    (windowSize : ℕ × ℕ) (f : Frame) : Frame :=
  match scene.rootPipelineId with
  | none => f
  | some rootPipelineId =>
    match lookupA scene.pipelines rootPipelineId with
    | none => f
    | some rootPipeline =>
      let resetPair := f.reset
      let f1 := resetPair.1
      let oldScrollingStates := resetPair.2
      let newEpochMap := insertA f1.pipelineEpochMap rootPipelineId rootPipeline.epoch
      let f1 := { f1 with pipelineEpochMap := newEpochMap }
      -- frame.rs:184-186: fully transparent colours are treated as no
      -- background.
      let backgroundColor := rootPipeline.backgroundColor.bind fun color =>
        if 0 < color.a then some color else none
      let builder := BuilderM.new f1.frameBuilder windowSize backgroundColor
      let st : FlattenState := ⟨[], builder, f1.clipScrollTree⟩
      let st := pushRootB st rootPipelineId rootPipeline.viewportSize
        rootPipeline.contentSize
      let st := setupViewportOffsetB st
      let st := flattenRoot scene f1.frameBuilderConfig resourceTiledImageMap
        rootPipelineId rootPipeline.displayList rootPipeline.contentSize st
      { f1 with
          frameBuilder := some st.builder,
          clipScrollTree :=
            finalizeAndApplyPendingScrollOffsets st.tree oldScrollingStates }

/-- A concrete frame-driver state whose `FrameId` sits at the largest `u32`
value, as reached after `2 ^ 32 - 1` resets. -/
def frameAtMaxId : Frame :=
  ⟨ClipScrollTreeM.new, [], 2 ^ 32 - 1, ⟨false⟩, none⟩

/-! ## State bookkeeping lemmas -/

@[simp]
theorem emit_replacements (st : FlattenState) (o : Op) :
    (st.emit o).replacements = st.replacements := rfl

@[simp]
theorem emit_refFrames (st : FlattenState) (o : Op) :
    (st.emit o).builder.refFrames = st.builder.refFrames := rfl

@[simp]
theorem emit_tree (st : FlattenState) (o : Op) :
    (st.emit o).tree = st.tree := rfl

@[simp]
theorem emit_ops (st : FlattenState) (o : Op) :
    (st.emit o).builder.ops = st.builder.ops ++ [o] := rfl

@[simp]
theorem emitAll_replacements (st : FlattenState) (os : List Op) :
    (st.emitAll os).replacements = st.replacements := rfl

@[simp]
theorem emitAll_refFrames (st : FlattenState) (os : List Op) :
    (st.emitAll os).builder.refFrames = st.builder.refFrames := rfl

@[simp]
theorem emitAll_tree (st : FlattenState) (os : List Op) :
    (st.emitAll os).tree = st.tree := rfl

@[simp]
theorem emitAll_ops (st : FlattenState) (os : List Op) :
    (st.emitAll os).builder.ops = st.builder.ops ++ os := rfl

@[simp]
theorem popReplacement_replacements (st : FlattenState) :
    st.popReplacement.replacements = st.replacements.tail := rfl

@[simp]
theorem popReplacement_builder (st : FlattenState) :
    st.popReplacement.builder = st.builder := rfl

@[simp]
theorem popReplacement_tree (st : FlattenState) :
    st.popReplacement.tree = st.tree := rfl

@[simp]
theorem popReferenceFrame_refFrames (b : BuilderM) :
    b.popReferenceFrame.refFrames = b.refFrames.tail := rfl

@[simp]
theorem popReferenceFrame_ops (b : BuilderM) :
    b.popReferenceFrame.ops = b.ops ++ [Op.popReferenceFrame] := rfl

@[simp]
theorem pushReferenceFrame_refFrames (b : BuilderM) (p : Option ClipId)
    (pid : PipelineId) (origin : Vec2) :
    (b.pushReferenceFrame p pid origin).2.refFrames =
      (b.pushReferenceFrame p pid origin).1 :: b.refFrames := rfl

@[simp]
theorem pushReferenceFrame_ops (b : BuilderM) (p : Option ClipId)
    (pid : PipelineId) (origin : Vec2) :
    (b.pushReferenceFrame p pid origin).2.ops =
      b.ops ++ [Op.pushReferenceFrame (b.pushReferenceFrame p pid origin).1 origin] := rfl

/-! ## Claim C5 -/

/-- Claim C5: for every replacement-stack state and every `ClipId`, the
fixed-position lookup returns the substitute of the top entry when that
entry's original id matches, and the id unchanged otherwise (empty stack, or
top entry differing); entries below the top are never consulted (the result
does not depend on them). -/
theorem claimC5_fixed_position_lookup :
    ∀ (top : ClipId × ClipId) (rest restAlt : List (ClipId × ClipId)) (id : ClipId),
      applyScrollFrameIdReplacement [] id = id ∧
      (top.1 = id → applyScrollFrameIdReplacement (top :: rest) id = top.2) ∧
      (top.1 ≠ id → applyScrollFrameIdReplacement (top :: rest) id = id) ∧
      applyScrollFrameIdReplacement (top :: rest) id =
        applyScrollFrameIdReplacement (top :: restAlt) id := by
  intro top rest restAlt id
  obtain ⟨toReplace, replacement⟩ := top
  refine ⟨rfl, ?_, ?_, rfl⟩
  · intro h
    simp only at h
    subst h
    simp [applyScrollFrameIdReplacement]
  · intro h
    simp only at h
    simp [applyScrollFrameIdReplacement, h]

/-- Witness for C5 at concrete ids: matching top entry returns the
substitute and the empty stack returns the id unchanged. -/
theorem claimC5_fixed_position_lookup_witness :
    applyScrollFrameIdReplacement [] (ClipId.clip 1 0) = ClipId.clip 1 0 ∧
    applyScrollFrameIdReplacement [(ClipId.clip 1 0, ClipId.dynamic 2 0)]
      (ClipId.clip 1 0) = ClipId.dynamic 2 0 :=
  ⟨(claimC5_fixed_position_lookup (ClipId.clip 1 0, ClipId.dynamic 2 0)
      [] [] (ClipId.clip 1 0)).1,
   (claimC5_fixed_position_lookup (ClipId.clip 1 0, ClipId.dynamic 2 0)
      [] [] (ClipId.clip 1 0)).2.1 rfl⟩

/-! ## Claim C7 -/

/-- Claim C7: when the scene has no root pipeline id, or the root pipeline
record is missing, `create` returns having changed no frame-driver state:
the whole `Frame` record (frame id, pipeline-epoch map, clip-scroll tree,
builder) is returned unchanged. -/
theorem claimC7_create_noop :
    ∀ (scene : Scene) (tm : TiledImageMap) (windowSize : ℕ × ℕ) (f : Frame),
      (scene.rootPipelineId = none ∨
        ∀ rp, scene.rootPipelineId = some rp → lookupA scene.pipelines rp = none) →
      Frame.create scene tm windowSize f = f := by
  intro scene tm ws f h
  unfold Frame.create
  cases hr : scene.rootPipelineId with
  | none => rfl
  | some rp =>
    rcases h with h | h
    · rw [hr] at h
      cases h
    · have hl := h rp hr
      simp only [hl]

/-- Witness for C7: a scene with no root pipeline id leaves a fresh frame
untouched. -/
theorem claimC7_create_noop_witness :
    (Scene.mk none []).rootPipelineId = none ∧
    Frame.create (Scene.mk none []) [] (800, 600) (Frame.new ⟨false⟩) =
      Frame.new ⟨false⟩ :=
  ⟨rfl, claimC7_create_noop (Scene.mk none []) [] (800, 600) (Frame.new ⟨false⟩)
    (Or.inl rfl)⟩

/-! ## Claim C8 -/

/-- Claim C8 counterexample: at the frame-driver state whose `FrameId` holds
the largest `u32` value, `reset` wraps the id to `0`: it does not increase
it by 1, and it decreases, refuting the claim as stated over every
frame-driver state. -/
theorem claimC8_counterexample :
    (Frame.reset frameAtMaxId).1.id = 0 ∧
    (Frame.reset frameAtMaxId).1.id ≠ frameAtMaxId.id + 1 ∧
    (Frame.reset frameAtMaxId).1.id < frameAtMaxId.id := by
  refine ⟨?_, ?_, ?_⟩ <;> norm_num [Frame.reset, frameAtMaxId, ClipScrollTreeM.drain]

/-- Claim C8 (amended): `reset` sets `FrameId` to `(id + 1) % 2 ^ 32`;
starting from a fresh frame, the id after `k` resets is exactly `k` for
every `k < 2 ^ 32`, so within any such sequence each reset increases the id
by exactly 1 and the id never decreases and never repeats. -/
theorem claimC8_frameid_monotone :
    ∀ (config : FrameBuilderConfig) (j k : ℕ), j < k → k < 2 ^ 32 →
      (resetIter config k).id = k ∧
      (resetIter config j).id < (resetIter config k).id ∧
      (resetIter config j).id ≠ (resetIter config k).id ∧
      (resetIter config (j + 1)).id = (resetIter config j).id + 1 := by
  have hid : ∀ (config : FrameBuilderConfig) (k : ℕ), k < 2 ^ 32 →
      (resetIter config k).id = k := by
    intro config k
    induction k with
    | zero => intro _; rfl
    | succ n ih =>
      intro h
      have hn : n < 2 ^ 32 := Nat.lt_of_succ_lt h
      have : (resetIter config (n + 1)).id = ((resetIter config n).id + 1) % 2 ^ 32 := rfl
      rw [this, ih hn]
      exact Nat.mod_eq_of_lt h
  intro config j k hjk hk
  have hj : j < 2 ^ 32 := lt_trans hjk hk
  have hj1 : j + 1 < 2 ^ 32 := Nat.lt_of_le_of_lt hjk hk
  have ej := hid config j hj
  have ek := hid config k hk
  have ej1 := hid config (j + 1) hj1
  refine ⟨ek, ?_, ?_, ?_⟩
  · rw [ej, ek]; exact hjk
  · rw [ej, ek]; exact Nat.ne_of_lt hjk
  · rw [ej1, ej]

/-- Witness for C8 (amended) at `j = 1`, `k = 2`. -/
theorem claimC8_frameid_monotone_witness :
    1 < 2 ∧ 2 < 2 ^ 32 ∧
    ((resetIter ⟨false⟩ 2).id = 2 ∧
     (resetIter ⟨false⟩ 1).id < (resetIter ⟨false⟩ 2).id ∧
     (resetIter ⟨false⟩ 1).id ≠ (resetIter ⟨false⟩ 2).id ∧
     (resetIter ⟨false⟩ (1 + 1)).id = (resetIter ⟨false⟩ 1).id + 1) :=
  ⟨by norm_num, by norm_num,
   claimC8_frameid_monotone ⟨false⟩ 1 2 (by norm_num) (by norm_num)⟩

/-! ## Stacking-context phase lemmas -/

theorem scEnterState_replacements (pid : PipelineId) (context : StackingContextM)
    (csid : ClipId) (off : Vec2) (bounds : RectQ) (bf : Bool) (st : FlattenState) :
    (scEnterState pid context csid off bounds bf st).replacements =
      (if context.transform.isSome || context.perspective.isSome then
        [(csid, ClipId.dynamic st.builder.nextDynamicId pid)] else []) ++
      (if context.scrollPolicy = ScrollPolicy.fixed then
        [(csid, st.builder.currentReferenceFrameId)] else []) ++
      st.replacements := by
  by_cases hfix : context.scrollPolicy = ScrollPolicy.fixed <;>
    by_cases hrf : (context.transform.isSome || context.perspective.isSome) = true <;>
      simp [scEnterState, hfix, hrf, BuilderM.pushReferenceFrame]

theorem scEnterState_refFrames (pid : PipelineId) (context : StackingContextM)
    (csid : ClipId) (off : Vec2) (bounds : RectQ) (bf : Bool) (st : FlattenState) :
    (scEnterState pid context csid off bounds bf st).builder.refFrames =
      (if context.transform.isSome || context.perspective.isSome then
        [ClipId.dynamic st.builder.nextDynamicId pid] else []) ++
      st.builder.refFrames := by
  by_cases hfix : context.scrollPolicy = ScrollPolicy.fixed <;>
    by_cases hrf : (context.transform.isSome || context.perspective.isSome) = true <;>
      simp [scEnterState, hfix, hrf, BuilderM.pushReferenceFrame]

theorem scEnterState_tree (pid : PipelineId) (context : StackingContextM)
    (csid : ClipId) (off : Vec2) (bounds : RectQ) (bf : Bool) (st : FlattenState) :
    (scEnterState pid context csid off bounds bf st).tree = st.tree := by
  by_cases hfix : context.scrollPolicy = ScrollPolicy.fixed <;>
    by_cases hrf : (context.transform.isSome || context.perspective.isSome) = true <;>
      simp [scEnterState, hfix, hrf, BuilderM.pushReferenceFrame]

theorem scEnterState_ops (pid : PipelineId) (context : StackingContextM)
    (csid : ClipId) (off : Vec2) (bounds : RectQ) (bf : Bool) (st : FlattenState) :
    (scEnterState pid context csid off bounds bf st).builder.ops =
      st.builder.ops ++
      (if context.transform.isSome || context.perspective.isSome then
        [Op.pushReferenceFrame (ClipId.dynamic st.builder.nextDynamicId pid)
          (off.1 + bounds.origin.1, off.2 + bounds.origin.2)] else []) ++
      [Op.pushStackingContext (scChildOffset context off bounds) pid
        context.transformStyle bf false] := by
  by_cases hfix : context.scrollPolicy = ScrollPolicy.fixed <;>
    by_cases hrf : (context.transform.isSome || context.perspective.isSome) = true <;>
      simp [scEnterState, hfix, hrf, BuilderM.pushReferenceFrame]

theorem scExitState_ops (context : StackingContextM) (st4 : FlattenState) :
    (scExitState context st4).builder.ops =
      st4.builder.ops ++
      (if context.transform.isSome || context.perspective.isSome then
        [Op.popReferenceFrame, Op.popStackingContext] else [Op.popStackingContext]) := by
  by_cases hfix : context.scrollPolicy = ScrollPolicy.fixed <;>
    by_cases hrf : (context.transform.isSome || context.perspective.isSome) = true <;>
      simp [scExitState, hfix, hrf]

theorem scExitState_tree (context : StackingContextM) (st4 : FlattenState) :
    (scExitState context st4).tree = st4.tree := by
  by_cases hfix : context.scrollPolicy = ScrollPolicy.fixed <;>
    by_cases hrf : (context.transform.isSome || context.perspective.isSome) = true <;>
      simp [scExitState, hfix, hrf]

theorem scExit_replacements_of_enter (pid : PipelineId) (context : StackingContextM)
    (csid : ClipId) (off : Vec2) (bounds : RectQ) (bf : Bool)
    (st st4 : FlattenState)
    (h : st4.replacements =
      (scEnterState pid context csid off bounds bf st).replacements) :
    (scExitState context st4).replacements = st.replacements := by
  rw [scEnterState_replacements] at h
  by_cases hfix : context.scrollPolicy = ScrollPolicy.fixed <;>
    by_cases hrf : (context.transform.isSome || context.perspective.isSome) = true <;>
      simp [scExitState, hfix, hrf, h]

theorem scExit_refFrames_of_enter (pid : PipelineId) (context : StackingContextM)
    (csid : ClipId) (off : Vec2) (bounds : RectQ) (bf : Bool)
    (st st4 : FlattenState)
    (h : st4.builder.refFrames =
      (scEnterState pid context csid off bounds bf st).builder.refFrames) :
    (scExitState context st4).builder.refFrames = st.builder.refFrames := by
  rw [scEnterState_refFrames] at h
  by_cases hfix : context.scrollPolicy = ScrollPolicy.fixed <;>
    by_cases hrf : (context.transform.isSome || context.perspective.isSome) = true <;>
      simp [scExitState, hfix, hrf, h]

/-! ## Traversal-wide state preservation -/

mutual

theorem flattenItem_extends (tm : TiledImageMap) (pid : PipelineId) (item : Item) :
    ∀ (off : Vec2) (st : FlattenState),
      (flattenItem tm pid off st item).replacements = st.replacements ∧
      (flattenItem tm pid off st item).builder.refFrames = st.builder.refFrames ∧
      (flattenItem tm pid off st item).tree = st.tree ∧
      st.builder.ops <+: (flattenItem tm pid off st item).builder.ops := by
  cases item with
  | rect info color cs =>
    intro off st
    simp only [flattenItem]
    cases h : tryToAddRectangleSplittingOnClip (info.translate off) color with
    | some prims => exact ⟨rfl, rfl, rfl, ⟨_, rfl⟩⟩
    | none => exact ⟨rfl, rfl, rfl, ⟨_, rfl⟩⟩
  | image info img cs =>
    intro off st
    simp only [flattenItem]
    cases h : lookupA tm img.imageKey with
    | some v => exact ⟨rfl, rfl, rfl, ⟨_, rfl⟩⟩
    | none => exact ⟨rfl, rfl, rfl, ⟨_, rfl⟩⟩
  | sc info context cs children =>
    intro off st
    cases hempty : children.isEmpty with
    | true =>
      simp [flattenItem, hempty]
    | false =>
      obtain ⟨h1, h2, h3, h4⟩ := flattenItems_extends tm pid children
        (scChildOffset context off info.rect)
        (scEnterState pid context cs.scrollNodeId off info.rect
          info.isBackfaceVisible st)
      simp only [flattenItem, hempty, Bool.false_eq_true, if_false]
      refine ⟨?_, ?_, ?_, ?_⟩
      · exact scExit_replacements_of_enter pid context cs.scrollNodeId off info.rect
          info.isBackfaceVisible st _ h1
      · exact scExit_refFrames_of_enter pid context cs.scrollNodeId off info.rect
          info.isBackfaceVisible st _ h2
      · rw [scExitState_tree, h3, scEnterState_tree]
      · rw [scExitState_ops]
        refine List.IsPrefix.trans ?_ (List.prefix_append _ _)
        refine List.IsPrefix.trans ?_ h4
        rw [scEnterState_ops]
        exact ((List.prefix_append _ _).trans (List.prefix_append _ _))

theorem flattenItems_extends (tm : TiledImageMap) (pid : PipelineId) (items : List Item) :
    ∀ (off : Vec2) (st : FlattenState),
      (flattenItems tm pid off st items).replacements = st.replacements ∧
      (flattenItems tm pid off st items).builder.refFrames = st.builder.refFrames ∧
      (flattenItems tm pid off st items).tree = st.tree ∧
      st.builder.ops <+: (flattenItems tm pid off st items).builder.ops := by
  cases items with
  | nil =>
    intro off st
    refine ⟨?_, ?_, ?_, ?_⟩
    · simp only [flattenItems]
    · simp only [flattenItems]
    · simp only [flattenItems]
    · simp only [flattenItems]
      exact List.prefix_rfl
  | cons item rest =>
    intro off st
    obtain ⟨a1, a2, a3, a4⟩ := flattenItem_extends tm pid item off st
    obtain ⟨b1, b2, b3, b4⟩ := flattenItems_extends tm pid rest off
      (flattenItem tm pid off st item)
    simp only [flattenItems]
    exact ⟨b1.trans a1, b2.trans a2, b3.trans a3, a4.trans b4⟩

end

/-! ## Claim C3 -/

/-- Claim C3: for a stacking-context item that is actually traversed, the
reference-frame-relative offset handed to the traversal of its children is
exactly zero when the context carries a transform or a perspective,
regardless of the entry offset; otherwise it is the entry offset plus the
origin of the context's local rectangle.  The last two conjuncts tie the
offset to the observables: it is recorded on the stacking context pushed to
the builder, and the children are flattened with exactly that offset. -/
theorem claimC3_offset_reset (tm : TiledImageMap) (pid : PipelineId) (off : Vec2)
    (st : FlattenState) (info : PrimInfo) (context : StackingContextM)
    (cs : ClipAndScrollInfo) (children : List Item)
    (h : children.isEmpty = false) :
    (context.transform.isSome = true ∨ context.perspective.isSome = true →
      scChildOffset context off info.rect = ((0 : ℚ), (0 : ℚ))) ∧
    (context.transform = none → context.perspective = none →
      scChildOffset context off info.rect = (off.1 + info.rect.x, off.2 + info.rect.y)) ∧
    (∃ pre,
      (scEnterState pid context cs.scrollNodeId off info.rect
        info.isBackfaceVisible st).builder.ops =
      st.builder.ops ++ pre ++
        [Op.pushStackingContext (scChildOffset context off info.rect) pid
          context.transformStyle info.isBackfaceVisible false]) ∧
    flattenItem tm pid off st (.sc info context cs children) =
      scExitState context
        (flattenItems tm pid (scChildOffset context off info.rect)
          (scEnterState pid context cs.scrollNodeId off info.rect
            info.isBackfaceVisible st) children) := by
  refine ⟨?_, ?_, ?_, ?_⟩
  · intro hor
    rcases hor with h1 | h1 <;> simp [scChildOffset, h1]
  · intro ht hp
    simp [scChildOffset, ht, hp, RectQ.origin]
  · rw [scEnterState_ops]
    exact ⟨_, rfl⟩
  · simp [flattenItem, h]

/-- Witness for C3: with a transform present the children's offset is zero
for entry offset `(5, 7)`; with neither transform nor perspective it is the
entry offset plus the context's local origin `(1, 2)`. -/
theorem claimC3_offset_reset_witness :
    ([Item.rect (PrimInfo.new ⟨0, 0, 1, 1⟩) ⟨0, 0, 0, 1⟩
        (ClipAndScrollInfo.simple (ClipId.clip 0 0))].isEmpty = false) ∧
    scChildOffset ⟨ScrollPolicy.scrollable, some (), none, TransformStyle.flat⟩
      (5, 7) (PrimInfo.new ⟨1, 2, 3, 4⟩).rect = ((0 : ℚ), (0 : ℚ)) ∧
    scChildOffset ⟨ScrollPolicy.scrollable, none, none, TransformStyle.flat⟩
      (5, 7) (PrimInfo.new ⟨1, 2, 3, 4⟩).rect = ((5 : ℚ) + 1, (7 : ℚ) + 2) :=
  ⟨rfl,
   (claimC3_offset_reset [] 0 (5, 7)
      ⟨[], ⟨[], 0, [], (8, 6), none⟩, ⟨[], ClipId.clip 0 0⟩⟩
      (PrimInfo.new ⟨1, 2, 3, 4⟩)
      ⟨ScrollPolicy.scrollable, some (), none, TransformStyle.flat⟩
      (ClipAndScrollInfo.simple (ClipId.clip 0 0))
      [Item.rect (PrimInfo.new ⟨0, 0, 1, 1⟩) ⟨0, 0, 0, 1⟩
        (ClipAndScrollInfo.simple (ClipId.clip 0 0))] rfl).1 (Or.inl rfl),
   (claimC3_offset_reset [] 0 (5, 7)
      ⟨[], ⟨[], 0, [], (8, 6), none⟩, ⟨[], ClipId.clip 0 0⟩⟩
      (PrimInfo.new ⟨1, 2, 3, 4⟩)
      ⟨ScrollPolicy.scrollable, none, none, TransformStyle.flat⟩
      (ClipAndScrollInfo.simple (ClipId.clip 0 0))
      [Item.rect (PrimInfo.new ⟨0, 0, 1, 1⟩) ⟨0, 0, 0, 1⟩
        (ClipAndScrollInfo.simple (ClipId.clip 0 0))] rfl).2.1 rfl rfl⟩

/-! ## Claim C4 -/

/-- Claim C4: processing a stacking-context item leaves the replacement
stack exactly as it was (every push is popped within the item's dynamic
extent) and leaves the builder's reference-frame stack as it was; moreover
the item's builder-call suffix is: when the context establishes a reference
frame, the reference-frame pop followed by the stacking-context pop (the
builder's stacking context popped last), and otherwise the stacking-context
pop alone.  The fixed-position and reference-frame replacement entries are
both removed, the stack being LIFO (`Vec::pop` removes the most recent
entry, so entries leave in reverse push order). -/
theorem claimC4_stack_balance (tm : TiledImageMap) (pid : PipelineId) (off : Vec2)
    (st : FlattenState) (info : PrimInfo) (context : StackingContextM)
    (cs : ClipAndScrollInfo) (children : List Item)
    (h : children.isEmpty = false) :
    (flattenItem tm pid off st (.sc info context cs children)).replacements =
      st.replacements ∧
    (flattenItem tm pid off st (.sc info context cs children)).builder.refFrames =
      st.builder.refFrames ∧
    ∃ mid,
      (flattenItem tm pid off st (.sc info context cs children)).builder.ops =
        st.builder.ops ++ mid ++
        (if context.transform.isSome || context.perspective.isSome then
          [Op.popReferenceFrame, Op.popStackingContext]
        else [Op.popStackingContext]) := by
  obtain ⟨h1, h2, _h3, _h4⟩ :=
    flattenItem_extends tm pid (.sc info context cs children) off st
  refine ⟨h1, h2, ?_⟩
  have heq : flattenItem tm pid off st (.sc info context cs children) =
      scExitState context
        (flattenItems tm pid (scChildOffset context off info.rect)
          (scEnterState pid context cs.scrollNodeId off info.rect
            info.isBackfaceVisible st) children) := by
    simp [flattenItem, h]
  obtain ⟨_c1, _c2, _c3, c4⟩ := flattenItems_extends tm pid children
    (scChildOffset context off info.rect)
    (scEnterState pid context cs.scrollNodeId off info.rect
      info.isBackfaceVisible st)
  have hpre : st.builder.ops <+:
      (flattenItems tm pid (scChildOffset context off info.rect)
        (scEnterState pid context cs.scrollNodeId off info.rect
          info.isBackfaceVisible st) children).builder.ops := by
    refine List.IsPrefix.trans ?_ c4
    rw [scEnterState_ops]
    exact (List.prefix_append _ _).trans (List.prefix_append _ _)
  obtain ⟨mid, hmid⟩ := hpre
  refine ⟨mid, ?_⟩
  rw [heq, scExitState_ops, ← hmid, List.append_assoc]

/-- Witness for C4 at a concrete fixed-policy, transformed stacking context
containing one rectangle: the replacement and reference-frame stacks are
restored and the builder-call suffix ends with the reference-frame pop and
the stacking-context pop. -/
theorem claimC4_stack_balance_witness :
    ([Item.rect (PrimInfo.new ⟨0, 0, 1, 1⟩) ⟨0, 0, 0, 1⟩
        (ClipAndScrollInfo.simple (ClipId.clip 0 0))].isEmpty = false) ∧
    ((flattenItem [] 0 (0, 0)
        ⟨[], ⟨[], 0, [], (8, 6), none⟩, ⟨[], ClipId.clip 0 0⟩⟩
        (.sc (PrimInfo.new ⟨1, 2, 3, 4⟩)
          ⟨ScrollPolicy.fixed, some (), none, TransformStyle.flat⟩
          (ClipAndScrollInfo.simple (ClipId.clip 0 0))
          [Item.rect (PrimInfo.new ⟨0, 0, 1, 1⟩) ⟨0, 0, 0, 1⟩
            (ClipAndScrollInfo.simple (ClipId.clip 0 0))])).replacements = [] ∧
     (flattenItem [] 0 (0, 0)
        ⟨[], ⟨[], 0, [], (8, 6), none⟩, ⟨[], ClipId.clip 0 0⟩⟩
        (.sc (PrimInfo.new ⟨1, 2, 3, 4⟩)
          ⟨ScrollPolicy.fixed, some (), none, TransformStyle.flat⟩
          (ClipAndScrollInfo.simple (ClipId.clip 0 0))
          [Item.rect (PrimInfo.new ⟨0, 0, 1, 1⟩) ⟨0, 0, 0, 1⟩
            (ClipAndScrollInfo.simple (ClipId.clip 0 0))])).builder.refFrames = [] ∧
     ∃ mid,
       (flattenItem [] 0 (0, 0)
          ⟨[], ⟨[], 0, [], (8, 6), none⟩, ⟨[], ClipId.clip 0 0⟩⟩
          (.sc (PrimInfo.new ⟨1, 2, 3, 4⟩)
            ⟨ScrollPolicy.fixed, some (), none, TransformStyle.flat⟩
            (ClipAndScrollInfo.simple (ClipId.clip 0 0))
            [Item.rect (PrimInfo.new ⟨0, 0, 1, 1⟩) ⟨0, 0, 0, 1⟩
              (ClipAndScrollInfo.simple (ClipId.clip 0 0))])).builder.ops =
         [] ++ mid ++
         (if (⟨ScrollPolicy.fixed, some (), none,
              TransformStyle.flat⟩ : StackingContextM).transform.isSome ||
             (⟨ScrollPolicy.fixed, some (), none,
              TransformStyle.flat⟩ : StackingContextM).perspective.isSome then
           [Op.popReferenceFrame, Op.popStackingContext]
         else [Op.popStackingContext])) :=
  ⟨rfl,
   claimC4_stack_balance [] 0 (0, 0)
     ⟨[], ⟨[], 0, [], (8, 6), none⟩, ⟨[], ClipId.clip 0 0⟩⟩
     (PrimInfo.new ⟨1, 2, 3, 4⟩)
     ⟨ScrollPolicy.fixed, some (), none, TransformStyle.flat⟩
     (ClipAndScrollInfo.simple (ClipId.clip 0 0))
     [Item.rect (PrimInfo.new ⟨0, 0, 1, 1⟩) ⟨0, 0, 0, 1⟩
       (ClipAndScrollInfo.simple (ClipId.clip 0 0))] rfl⟩

/-! ## Root-flattening trace decomposition -/

theorem flattenRoot_ops (scene : Scene) (config : FrameBuilderConfig)
    (tm : TiledImageMap) (pid : PipelineId) (items : List Item)
    (contentSize : SizeQ) (st : FlattenState) :
    (flattenRoot scene config tm pid items contentSize st).tree = st.tree ∧
    ∃ itemsDelta,
      (flattenRoot scene config tm pid items contentSize st).builder.ops =
        st.builder.ops ++
        [Op.pushStackingContext (0, 0) pid TransformStyle.flat true true,
         Op.notifyWaitingForRootStackingContext] ++
        rootBackgroundSeg scene pid contentSize ++ itemsDelta ++
        rootScrollbarSeg config pid st.tree ++ [Op.popStackingContext] := by
  obtain ⟨r1, r2, r3, r4⟩ := flattenItems_extends tm pid items (0, 0)
    (((st.emit (Op.pushStackingContext (0, 0) pid TransformStyle.flat true true)).emit
        Op.notifyWaitingForRootStackingContext).emitAll
      (rootBackgroundSeg scene pid contentSize))
  obtain ⟨d, hd⟩ := r4
  constructor
  · simp only [flattenRoot, emit_tree, emitAll_tree]
    rw [r3]
    rfl
  · refine ⟨d, ?_⟩
    simp only [flattenRoot, emit_ops, emitAll_ops]
    rw [← hd, r3]
    simp only [emit_tree, emitAll_tree, emit_ops, emitAll_ops]
    simp [List.append_assoc]

/-! ## Claim C9 -/

/-- Claim C9: the background-rectangle stage of `flatten_root` emits exactly
the segment `rootBackgroundSeg`, placed right after the root
stacking-context push; that segment is the single full-content-size solid
rectangle (origin zero, content size, the pipeline's background colour —
with no alpha test, so fully transparent colours included — attached to the
pipeline's root scroll node) precisely when the pipeline is not the scene's
root pipeline, its record is present, and its background colour is present;
and the scene's root pipeline never receives such a rectangle. -/
theorem claimC9_background_rect (scene : Scene) (config : FrameBuilderConfig)
    (tm : TiledImageMap) (pid : PipelineId) (items : List Item)
    (contentSize : SizeQ) (st : FlattenState) :
    (∃ tail,
      (flattenRoot scene config tm pid items contentSize st).builder.ops =
        st.builder.ops ++
        [Op.pushStackingContext (0, 0) pid TransformStyle.flat true true,
         Op.notifyWaitingForRootStackingContext] ++
        rootBackgroundSeg scene pid contentSize ++ tail) ∧
    (∀ c : ColorF,
      rootBackgroundSeg scene pid contentSize =
        [Op.addSolidRectangle (ClipAndScrollInfo.simple (ClipId.rootScrollNode pid))
          (PrimInfo.new ⟨0, 0, contentSize.w, contentSize.h⟩) c
          PrimitiveFlags.noFlags] ↔
      (scene.rootPipelineId ≠ some pid ∧
        ∃ pipeline, lookupA scene.pipelines pid = some pipeline ∧
          pipeline.backgroundColor = some c)) ∧
    (scene.rootPipelineId = some pid →
      rootBackgroundSeg scene pid contentSize = []) := by
  refine ⟨?_, ?_, ?_⟩
  · obtain ⟨_, d, hd⟩ := flattenRoot_ops scene config tm pid items contentSize st
    exact ⟨d ++ rootScrollbarSeg config pid st.tree ++ [Op.popStackingContext],
      by rw [hd]; simp [List.append_assoc]⟩
  · intro c
    by_cases hroot : scene.rootPipelineId = some pid
    · simp [rootBackgroundSeg, hroot]
    · cases hlk : lookupA scene.pipelines pid with
      | none => simp [rootBackgroundSeg, hroot, hlk]
      | some pipeline =>
        cases hbg : pipeline.backgroundColor with
        | none => simp [rootBackgroundSeg, hroot, hlk, hbg]
        | some bgColor =>
          unfold rootBackgroundSeg
          rw [if_pos hroot]
          simp only [hlk, hbg]
          constructor
          · intro h
            simp only [List.cons.injEq, Op.addSolidRectangle.injEq] at h
            exact ⟨hroot, pipeline, rfl, by rw [hbg, h.1.2.2.1]⟩
          · rintro ⟨-, pipeline2, hp2, hc2⟩
            cases hp2
            rw [hbg] at hc2
            cases hc2
            rfl
  · intro h
    simp [rootBackgroundSeg, h]

/-- Witness for C9's conditional parts: for a scene whose root pipeline is
pipeline 0, the background segment for pipeline 0 is empty. -/
theorem claimC9_background_rect_witness :
    (Scene.mk (some 0) []).rootPipelineId = some 0 ∧
    rootBackgroundSeg (Scene.mk (some 0) []) 0 ⟨100, 50⟩ = [] :=
  ⟨rfl, (claimC9_background_rect (Scene.mk (some 0) []) ⟨false⟩ [] 0 [] ⟨100, 50⟩
      ⟨[], ⟨[], 0, [], (8, 6), none⟩, ⟨[], ClipId.clip 0 0⟩⟩).2.2 rfl⟩

/-! ## Claim C10 -/

/-- Claim C10: `flatten_root` emits, after all of the pipeline's items and
immediately before the root stacking context is popped, exactly one solid
rectangle — origin zero, size 10x70, colour (0.3, 0.3, 0.3, 0.6), attached
to the pipeline's root scroll node and flagged as a scrollbar of width 4
tracking the topmost scrolling node — when and only when the configuration
enables scrollbars (the segment is empty otherwise). -/
theorem claimC10_scrollbar (scene : Scene) (config : FrameBuilderConfig)
    (tm : TiledImageMap) (pid : PipelineId) (items : List Item)
    (contentSize : SizeQ) (st : FlattenState) :
    ∃ itemsDelta,
      (flattenRoot scene config tm pid items contentSize st).builder.ops =
        st.builder.ops ++
        [Op.pushStackingContext (0, 0) pid TransformStyle.flat true true,
         Op.notifyWaitingForRootStackingContext] ++
        rootBackgroundSeg scene pid contentSize ++ itemsDelta ++
        (if config.enableScrollbars = true then
          [Op.addSolidRectangle (ClipAndScrollInfo.simple (ClipId.rootScrollNode pid))
            (PrimInfo.new ⟨0, 0, 10, 70⟩) ⟨3/10, 3/10, 3/10, 6/10⟩
            (PrimitiveFlags.scrollbar st.tree.topmostScrollingNodeId 4)]
        else []) ++
        [Op.popStackingContext] := by
  obtain ⟨_, d, hd⟩ := flattenRoot_ops scene config tm pid items contentSize st
  refine ⟨d, ?_⟩
  rw [hd]
  have : rootScrollbarSeg config pid st.tree =
      (if config.enableScrollbars = true then
        [Op.addSolidRectangle (ClipAndScrollInfo.simple (ClipId.rootScrollNode pid))
          (PrimInfo.new ⟨0, 0, 10, 70⟩) ⟨3/10, 3/10, 3/10, 6/10⟩
          (PrimitiveFlags.scrollbar st.tree.topmostScrollingNodeId 4)]
      else []) := by
    cases h : config.enableScrollbars <;>
      simp [rootScrollbarSeg, h, defaultScrollbarColor]
  rw [this]

/-! ## Claim C6 -/

/-- Claim C6 counterexample: at a fully opaque 100x100 rectangle clipped by
a rounded-rectangle region with radius 10 on every corner, the optimization
applies and emits the inner primitive plus four band primitives — but each
band primitive carries the item's original local clip, which is the rounded
region (frame.rs:1199-1207 clones the original info), not the bare clip
rectangle bound the claim asserts. -/
theorem claimC6_counterexample :
    tryToAddRectangleSplittingOnClip
      ⟨⟨0, 0, 100, 100⟩,
       LocalClip.roundedRect ⟨0, 0, 100, 100⟩
         ⟨⟨0, 0, 100, 100⟩, ⟨⟨10, 10⟩, ⟨10, 10⟩, ⟨10, 10⟩, ⟨10, 10⟩⟩⟩,
       true, none⟩ ⟨1, 1, 1, 1⟩ =
      some
        [⟨⟨10, 10, 80, 80⟩, LocalClip.rect ⟨0, 0, 100, 100⟩, true, none⟩,
         ⟨⟨0, 0, 100, 10⟩,
          LocalClip.roundedRect ⟨0, 0, 100, 100⟩
            ⟨⟨0, 0, 100, 100⟩, ⟨⟨10, 10⟩, ⟨10, 10⟩, ⟨10, 10⟩, ⟨10, 10⟩⟩⟩,
          true, none⟩,
         ⟨⟨0, 90, 100, 10⟩,
          LocalClip.roundedRect ⟨0, 0, 100, 100⟩
            ⟨⟨0, 0, 100, 100⟩, ⟨⟨10, 10⟩, ⟨10, 10⟩, ⟨10, 10⟩, ⟨10, 10⟩⟩⟩,
          true, none⟩,
         ⟨⟨0, 10, 10, 80⟩,
          LocalClip.roundedRect ⟨0, 0, 100, 100⟩
            ⟨⟨0, 0, 100, 100⟩, ⟨⟨10, 10⟩, ⟨10, 10⟩, ⟨10, 10⟩, ⟨10, 10⟩⟩⟩,
          true, none⟩,
         ⟨⟨90, 10, 10, 80⟩,
          LocalClip.roundedRect ⟨0, 0, 100, 100⟩
            ⟨⟨0, 0, 100, 100⟩, ⟨⟨10, 10⟩, ⟨10, 10⟩, ⟨10, 10⟩, ⟨10, 10⟩⟩⟩,
          true, none⟩] ∧
    (LocalClip.roundedRect ⟨0, 0, 100, 100⟩
        ⟨⟨0, 0, 100, 100⟩, ⟨⟨10, 10⟩, ⟨10, 10⟩, ⟨10, 10⟩, ⟨10, 10⟩⟩⟩ ≠
      LocalClip.rect ⟨0, 0, 100, 100⟩) := by
  constructor
  · norm_num [tryToAddRectangleSplittingOnClip, getInnerRectFull, subtractRect,
      RectQ.intersection, RectQ.intersects, LocalClip.clipRect]
  · simp

/-- Claim C6 (amended): the clip-splitting optimization applies exactly when
the fill colour's alpha is 1 and the local clip is a rounded-rectangle
region with a defined maximal inner rectangle; when it applies it emits one
primitive for the inner rectangle carrying only the non-rounded clip
rectangle bound, plus one primitive per region of the original rectangle
minus the inner rectangle — each of those carrying the item's original
local clip, that is, still including the rounded mask (only the inner
primitive drops it); when it does not apply the caller emits the single
masked primitive unchanged. -/
theorem claimC6_clip_splitting (info : PrimInfo) (color : ColorF) :
    ((tryToAddRectangleSplittingOnClip info color).isSome = true ↔
      (color.a = 1 ∧ ∃ r region, info.localClip = LocalClip.roundedRect r region ∧
        (getInnerRectFull region).isSome = true)) ∧
    (∀ (r : RectQ) (region : ComplexClipRegion) (inner : RectQ),
      color.a = 1 →
      info.localClip = LocalClip.roundedRect r region →
      getInnerRectFull region = some inner →
      tryToAddRectangleSplittingOnClip info color =
        some (⟨inner, LocalClip.rect r, info.isBackfaceVisible, none⟩ ::
          (subtractRect info.rect inner).map fun cr => { info with rect := cr })) ∧
    (∀ (tm : TiledImageMap) (pid : PipelineId) (off : Vec2) (st : FlattenState)
      (cs : ClipAndScrollInfo),
      tryToAddRectangleSplittingOnClip (info.translate off) color = none →
      (flattenItem tm pid off st (.rect info color cs)).builder.ops =
        st.builder.ops ++
        [Op.addSolidRectangle (applyReplacementCS st.replacements cs)
          (info.translate off) color PrimitiveFlags.noFlags]) := by
  refine ⟨?_, ?_, ?_⟩
  · by_cases ha : color.a = 1
    · cases hc : info.localClip with
      | rect r =>
        simp [tryToAddRectangleSplittingOnClip, ha, hc]
      | roundedRect r region =>
        cases hg : getInnerRectFull region with
        | none => simp [tryToAddRectangleSplittingOnClip, ha, hc, hg]
        | some inner =>
          simp only [tryToAddRectangleSplittingOnClip, ha, hc, hg]
          simp only [ne_eq, not_true_eq_false, if_false]
          constructor
          · intro _
            exact ⟨trivial, r, region, rfl, by rw [hg]; rfl⟩
          · intro _
            rfl
    · simp [tryToAddRectangleSplittingOnClip, ha]
  · intro r region inner ha hc hg
    simp [tryToAddRectangleSplittingOnClip, ha, hc, hg, LocalClip.clipRect]
  · intro tm pid off st cs hnone
    simp only [flattenItem, hnone]
    rfl

/-- Witness for C6 (amended): applying the characterization at a degenerate
all-zero rounded clip (optimization applies) and at a non-opaque colour
(optimization does not apply, single primitive emitted). -/
theorem claimC6_clip_splitting_witness :
    ((⟨1, 1, 1, 1⟩ : ColorF).a = 1) ∧
    (getInnerRectFull ⟨⟨0, 0, 0, 0⟩, ⟨⟨0, 0⟩, ⟨0, 0⟩, ⟨0, 0⟩, ⟨0, 0⟩⟩⟩ =
      some ⟨0, 0, 0, 0⟩) ∧
    (tryToAddRectangleSplittingOnClip
      ⟨⟨0, 0, 0, 0⟩,
       LocalClip.roundedRect ⟨0, 0, 0, 0⟩
         ⟨⟨0, 0, 0, 0⟩, ⟨⟨0, 0⟩, ⟨0, 0⟩, ⟨0, 0⟩, ⟨0, 0⟩⟩⟩,
       true, none⟩ ⟨1, 1, 1, 1⟩ =
      some (⟨⟨0, 0, 0, 0⟩, LocalClip.rect ⟨0, 0, 0, 0⟩, true, none⟩ ::
        (subtractRect ⟨0, 0, 0, 0⟩ ⟨0, 0, 0, 0⟩).map fun cr =>
          { (⟨⟨0, 0, 0, 0⟩,
              LocalClip.roundedRect ⟨0, 0, 0, 0⟩
                ⟨⟨0, 0, 0, 0⟩, ⟨⟨0, 0⟩, ⟨0, 0⟩, ⟨0, 0⟩, ⟨0, 0⟩⟩⟩,
              true, none⟩ : PrimInfo) with rect := cr })) ∧
    (tryToAddRectangleSplittingOnClip
      ((⟨⟨0, 0, 5, 5⟩, LocalClip.rect ⟨0, 0, 5, 5⟩, true, none⟩ :
        PrimInfo).translate (0, 0)) ⟨0, 0, 0, 2⟩ = none) ∧
    (flattenItem [] 0 (0, 0) ⟨[], ⟨[], 0, [], (8, 6), none⟩, ⟨[], ClipId.clip 0 0⟩⟩
      (.rect ⟨⟨0, 0, 5, 5⟩, LocalClip.rect ⟨0, 0, 5, 5⟩, true, none⟩ ⟨0, 0, 0, 2⟩
        (ClipAndScrollInfo.simple (ClipId.clip 0 0)))).builder.ops =
      [] ++
      [Op.addSolidRectangle
        (applyReplacementCS [] (ClipAndScrollInfo.simple (ClipId.clip 0 0)))
        ((⟨⟨0, 0, 5, 5⟩, LocalClip.rect ⟨0, 0, 5, 5⟩, true, none⟩ :
          PrimInfo).translate (0, 0)) ⟨0, 0, 0, 2⟩ PrimitiveFlags.noFlags] :=
  ⟨rfl,
   by simp [getInnerRectFull],
   (claimC6_clip_splitting
      ⟨⟨0, 0, 0, 0⟩,
       LocalClip.roundedRect ⟨0, 0, 0, 0⟩
         ⟨⟨0, 0, 0, 0⟩, ⟨⟨0, 0⟩, ⟨0, 0⟩, ⟨0, 0⟩, ⟨0, 0⟩⟩⟩,
       true, none⟩ ⟨1, 1, 1, 1⟩).2.1 ⟨0, 0, 0, 0⟩
     ⟨⟨0, 0, 0, 0⟩, ⟨⟨0, 0⟩, ⟨0, 0⟩, ⟨0, 0⟩, ⟨0, 0⟩⟩⟩ ⟨0, 0, 0, 0⟩ rfl rfl
     (by simp [getInnerRectFull]),
   by decide,
   (claimC6_clip_splitting
      ⟨⟨0, 0, 5, 5⟩, LocalClip.rect ⟨0, 0, 5, 5⟩, true, none⟩ ⟨0, 0, 0, 2⟩).2.2
     [] 0 (0, 0) ⟨[], ⟨[], 0, [], (8, 6), none⟩, ⟨[], ClipId.clip 0 0⟩⟩
     (ClipAndScrollInfo.simple (ClipId.clip 0 0)) (by decide)⟩

theorem mem_tileDescriptors (ntx nty lw lh ts : ℕ) (tx ty : ℕ) (rwq rhq : ℚ) :
    (⟨tx, ty, rwq, rhq⟩ : TileDesc) ∈ tileDescriptors ntx nty lw lh ts ↔
      ((tx < ntx ∧ ty < nty ∧ rwq = 1 ∧ rhq = 1) ∨
       (lw ≠ 0 ∧ tx = ntx ∧ ty < nty ∧ rwq = (lw : ℚ) / (ts : ℚ) ∧ rhq = 1) ∨
       (lh ≠ 0 ∧ tx < ntx ∧ ty = nty ∧ rwq = 1 ∧ rhq = (lh : ℚ) / (ts : ℚ)) ∨
       (lw ≠ 0 ∧ lh ≠ 0 ∧ tx = ntx ∧ ty = nty ∧ rwq = (lw : ℚ) / (ts : ℚ) ∧
         rhq = (lh : ℚ) / (ts : ℚ))) := by
  by_cases hlw : lw = 0 <;> by_cases hlh : lh = 0 <;>
    simp [tileDescriptors, hlw, hlh, TileDesc.mk.injEq, List.mem_flatMap,
      List.mem_append, List.mem_map, List.mem_range] <;>
    aesop

theorem tileDescriptors_offsets (ntx nty lw lh ts : ℕ) :
    (tileDescriptors ntx nty lw lh ts).map (fun d => (d.tx, d.ty)) =
      ((List.range nty).flatMap fun ty =>
        ((List.range ntx).map fun tx => (tx, ty)) ++
        (if lw ≠ 0 then [(ntx, ty)] else [])) ++
      (if lh ≠ 0 then
        ((List.range ntx).map fun tx => (tx, nty)) ++
        (if lw ≠ 0 then [(ntx, nty)] else [])
      else []) := by
  by_cases hlw : lw = 0 <;> by_cases hlh : lh = 0 <;>
    simp [tileDescriptors, hlw, hlh, List.map_flatMap, Function.comp_def]

theorem tileDescriptors_offsets_nodup (ntx nty lw lh ts : ℕ) :
    ((tileDescriptors ntx nty lw lh ts).map fun d => (d.tx, d.ty)).Nodup := by
  rw [tileDescriptors_offsets]
  have hrow : ∀ b : ℕ, (((List.range ntx).map fun tx => (tx, b)) ++
      (if lw ≠ 0 then [(ntx, b)] else [])).Nodup := by
    intro b
    rw [List.nodup_append]
    refine ⟨(List.nodup_range ntx).map ?_, ?_, ?_⟩
    · intro a1 a2 hab
      simpa using congrArg Prod.fst hab
    · by_cases hlw : lw = 0 <;> simp [hlw]
    · by_cases hlw : lw = 0
      · simp [hlw]
      · simp only [hlw, ne_eq, not_false_eq_true, if_true, List.disjoint_singleton,
          List.mem_map, List.mem_range, not_exists]
        intro a
        simp only [Prod.mk.injEq, not_and]
        intro ha hcontra
        omega
  have hmem_row : ∀ (b : ℕ) (p : ℕ × ℕ),
      p ∈ ((List.range ntx).map fun tx => (tx, b)) ++
        (if lw ≠ 0 then [(ntx, b)] else []) → p.2 = b := by
    intro b p hp
    rcases List.mem_append.mp hp with hp | hp
    · obtain ⟨tx, _, rfl⟩ := List.mem_map.mp hp
      rfl
    · by_cases hlw : lw = 0
      · simp [hlw] at hp
      · simp only [hlw, ne_eq, not_false_eq_true, if_true, List.mem_singleton] at hp
        rw [hp]
  rw [List.nodup_append]
  refine ⟨?_, ?_, ?_⟩
  · rw [List.nodup_flatMap]
    refine ⟨fun b _ => hrow b, ?_⟩
    refine (List.pairwise_lt_range nty).imp ?_
    intro a b hab
    rw [Function.onFun, List.disjoint_left]
    intro p hpa hpb
    have h1 := hmem_row a p hpa
    have h2 := hmem_row b p hpb
    omega
  · by_cases hlh : lh = 0
    · simp [hlh]
    · simp only [hlh, ne_eq, not_false_eq_true, if_true]
      exact hrow nty
  · rw [List.disjoint_left]
    intro p hpA hpB
    obtain ⟨b, hb, hp⟩ := List.mem_flatMap.mp hpA
    have h1 := hmem_row b p hp
    have hb2 : b < nty := List.mem_range.mp hb
    by_cases hlh : lh = 0
    · simp [hlh] at hpB
    · simp only [hlh, ne_eq, not_false_eq_true, if_true] at hpB
      have h2 := hmem_row nty p hpB
      omega

theorem filterMap_map_sublist {α β γ : Type} (l : List α) (f : α → Option β)
    (g : β → γ) (gA : α → γ) (h : ∀ a b, f a = some b → g b = gA a) :
    ((l.filterMap f).map g).Sublist (l.map gA) := by
  induction l with
  | nil => simp
  | cons a t ih =>
    cases hfa : f a with
    | none =>
      simp only [List.filterMap_cons, hfa, List.map_cons]
      exact ih.cons _
    | some b =>
      simp only [List.filterMap_cons, hfa, List.map_cons]
      rw [h a b hfa]
      exact ih.cons₂ _

theorem decomposeTiledImage_eq (itemRect : RectQ) (info : ImageItem)
    (imageSize : ℕ × ℕ) (ts : ℕ) :
    decomposeTiledImage itemRect info imageSize ts =
      (tileDescriptors (imageSize.1 / ts % 2 ^ 16) (imageSize.2 / ts % 2 ^ 16)
        (imageSize.1 % ts) (imageSize.2 % ts) ts).filterMap fun d =>
        addTilePrimitive itemRect (d.tx, d.ty)
          ⟨(ts : ℚ) / (imageSize.1 : ℚ) * info.stretchSize.w,
           (ts : ℚ) / (imageSize.2 : ℚ) * info.stretchSize.h⟩
          d.ratioW d.ratioH
          (decide (info.stretchSize.w < itemRect.w) && ! decide (ts < imageSize.1))
          (decide (info.stretchSize.h < itemRect.h) && ! decide (ts < imageSize.2)) :=
  rfl

theorem addTilePrimitive_some (itemRect : RectQ) (toff : ℕ × ℕ) (sts : SizeQ)
    (ratioW ratioH : ℚ) (sx sy : Bool) (p : TilePrim)
    (h : addTilePrimitive itemRect toff sts ratioW ratioH sx sy = some p) :
    p.tileOffset = toff ∧ p.shaderRepeatX = sx ∧ p.shaderRepeatY = sy := by
  unfold addTilePrimitive at h
  rw [Option.map_eq_some'] at h
  obtain ⟨r, _, hr⟩ := h
  rw [← hr]
  exact ⟨rfl, rfl, rfl⟩

theorem decomposeTiledImage_offsets_nodup (itemRect : RectQ) (info : ImageItem)
    (imageSize : ℕ × ℕ) (ts : ℕ) :
    ((decomposeTiledImage itemRect info imageSize ts).map
      fun p => p.tileOffset).Nodup := by
  rw [decomposeTiledImage_eq]
  have hsub : (((tileDescriptors (imageSize.1 / ts % 2 ^ 16)
      (imageSize.2 / ts % 2 ^ 16)
      (imageSize.1 % ts) (imageSize.2 % ts) ts).filterMap fun d =>
        addTilePrimitive itemRect (d.tx, d.ty)
          ⟨(ts : ℚ) / (imageSize.1 : ℚ) * info.stretchSize.w,
           (ts : ℚ) / (imageSize.2 : ℚ) * info.stretchSize.h⟩
          d.ratioW d.ratioH
          (decide (info.stretchSize.w < itemRect.w) && ! decide (ts < imageSize.1))
          (decide (info.stretchSize.h < itemRect.h) && ! decide (ts < imageSize.2))).map
      fun p => p.tileOffset).Sublist
      ((tileDescriptors (imageSize.1 / ts % 2 ^ 16) (imageSize.2 / ts % 2 ^ 16)
        (imageSize.1 % ts) (imageSize.2 % ts) ts).map fun d => (d.tx, d.ty)) := by
    apply filterMap_map_sublist
    intro d p hp
    exact (addTilePrimitive_some _ _ _ _ _ _ _ _ hp).1
  exact hsub.nodup (tileDescriptors_offsets_nodup (imageSize.1 / ts % 2 ^ 16)
    (imageSize.2 / ts % 2 ^ 16) (imageSize.1 % ts) (imageSize.2 % ts) ts)

theorem RectQ.intersection_eq_some (a b r : RectQ)
    (h : a.intersection b = some r) :
    r = ⟨max a.x b.x, max a.y b.y,
         min (a.x + a.w) (b.x + b.w) - max a.x b.x,
         min (a.y + a.h) (b.y + b.h) - max a.y b.y⟩ := by
  unfold RectQ.intersection at h
  split at h
  · rw [Option.some.injEq] at h
    exact h.symm
  · cases h

theorem addTilePrimitive_shaderRepeatX (itemRect : RectQ) (toff : ℕ × ℕ)
    (sts : SizeQ) (ratioW ratioH : ℚ) (sy : Bool) (p : TilePrim)
    (h0 : toff.1 = 0)
    (h : addTilePrimitive itemRect toff sts ratioW ratioH true sy = some p) :
    p.shaderRepeatX = true ∧ p.tileOffset.1 = 0 ∧
    p.rect.x = itemRect.x ∧ p.rect.w = itemRect.w := by
  unfold addTilePrimitive at h
  rw [Option.map_eq_some'] at h
  obtain ⟨r, hr, hp⟩ := h
  cases hp
  have hre := RectQ.intersection_eq_some _ _ _ hr
  refine ⟨rfl, h0, ?_, ?_⟩
  · show r.x = itemRect.x
    rw [hre]
    cases sy <;> simp [h0]
  · show r.w = itemRect.w
    rw [hre]
    cases sy <;> simp [h0]

theorem addTilePrimitive_shaderRepeatY (itemRect : RectQ) (toff : ℕ × ℕ)
    (sts : SizeQ) (ratioW ratioH : ℚ) (sx : Bool) (p : TilePrim)
    (h0 : toff.2 = 0)
    (h : addTilePrimitive itemRect toff sts ratioW ratioH sx true = some p) :
    p.shaderRepeatY = true ∧ p.tileOffset.2 = 0 ∧
    p.rect.y = itemRect.y ∧ p.rect.h = itemRect.h := by
  unfold addTilePrimitive at h
  rw [Option.map_eq_some'] at h
  obtain ⟨r, hr, hp⟩ := h
  cases hp
  have hre := RectQ.intersection_eq_some _ _ _ hr
  refine ⟨rfl, h0, ?_, ?_⟩
  · show r.y = itemRect.y
    rw [hre]
    cases sx <;> simp [h0]
  · show r.h = itemRect.h
    rw [hre]
    cases sx <;> simp [h0]

theorem decomposeTiledImage_concrete :
    decomposeTiledImage ⟨0, 0, 300, 140⟩ ⟨0, ⟨300, 140⟩, ⟨0, 0⟩⟩ (300, 140) 128 =
      [⟨⟨0, 0, 128, 128⟩, ⟨128, 128⟩, (0, 0), false, false⟩,
       ⟨⟨128, 0, 128, 128⟩, ⟨128, 128⟩, (1, 0), false, false⟩,
       ⟨⟨256, 0, 44, 128⟩, ⟨44, 128⟩, (2, 0), false, false⟩,
       ⟨⟨0, 128, 128, 12⟩, ⟨128, 12⟩, (0, 1), false, false⟩,
       ⟨⟨128, 128, 128, 12⟩, ⟨128, 12⟩, (1, 1), false, false⟩,
       ⟨⟨256, 128, 44, 12⟩, ⟨44, 12⟩, (2, 1), false, false⟩] := by
  norm_num [decomposeTiledImage, tileDescriptors, addTilePrimitive,
    RectQ.intersection, RectQ.intersects, List.range_succ,
    List.filterMap_cons, List.filterMap_nil]

theorem concreteTiles_cover (p : Vec2) :
    RectQ.memPt ⟨0, 0, 300, 140⟩ p ↔
      (RectQ.memPt ⟨0, 0, 128, 128⟩ p ∨ RectQ.memPt ⟨128, 0, 128, 128⟩ p ∨
       RectQ.memPt ⟨256, 0, 44, 128⟩ p ∨ RectQ.memPt ⟨0, 128, 128, 12⟩ p ∨
       RectQ.memPt ⟨128, 128, 128, 12⟩ p ∨ RectQ.memPt ⟨256, 128, 44, 12⟩ p) := by
  obtain ⟨x, y⟩ := p
  simp only [RectQ.memPt]
  norm_num
  constructor
  · rintro ⟨h1, h2, h3, h4⟩
    rcases le_total x 128 with hx | hx
    · rcases le_total y 128 with hy | hy
      · exact Or.inl ⟨h1, hx, h3, hy⟩
      · exact Or.inr (Or.inr (Or.inr (Or.inl ⟨h1, hx, hy, h4⟩)))
    · rcases le_total x 256 with hx2 | hx2
      · rcases le_total y 128 with hy | hy
        · exact Or.inr (Or.inl ⟨hx, hx2, h3, hy⟩)
        · exact Or.inr (Or.inr (Or.inr (Or.inr (Or.inl ⟨hx, hx2, hy, h4⟩))))
      · rcases le_total y 128 with hy | hy
        · exact Or.inr (Or.inr (Or.inl ⟨hx2, h2, h3, hy⟩))
        · exact Or.inr (Or.inr (Or.inr (Or.inr (Or.inr ⟨hx2, h2, hy, h4⟩))))
  · rintro (⟨h1, h2, h3, h4⟩ | ⟨h1, h2, h3, h4⟩ | ⟨h1, h2, h3, h4⟩ |
      ⟨h1, h2, h3, h4⟩ | ⟨h1, h2, h3, h4⟩ | ⟨h1, h2, h3, h4⟩) <;>
      refine ⟨by linarith, by linarith, by linarith, by linarith⟩

/-! ## Claim C1 -/

/-- Claim C1 (amended): for a non-zero tile size (the source panics on a
zero one), the tile-grid stage issues exactly one `add_tile_primitive` call
per full tile `(tx, ty)` with `tx < w / ts % 2 ^ 16` and
`ty < h / ts % 2 ^ 16` — the loop bounds being the u16-TRUNCATED quotients
of frame.rs:949-950, not the plain quotients the original claim states —
plus one right-edge tile per row with width ratio `(w % ts) / ts` when
`w % ts ≠ 0`, one bottom-edge tile per column with height ratio
`(h % ts) / ts` when `h % ts ≠ 0`, and exactly one corner tile with both
ratios when both remainders are non-zero (membership characterization plus
distinct tile offsets); the emitted primitives are exactly those calls
whose rectangle intersects the item rectangle.  Whenever both quotients are
below `2 ^ 16` the truncation vanishes and the original characterization
holds; in particular for image size 300x140 with tile size 128 and the item
rectangle equal to the stretched image, exactly 6 tile primitives are
emitted, all inside the item rectangle, pairwise non-overlapping, whose
union is exactly the item rectangle. -/
theorem claimC1_tile_grid :
    (∀ (w h ts tx ty : ℕ) (rwq rhq : ℚ), ts ≠ 0 →
      ((⟨tx, ty, rwq, rhq⟩ : TileDesc) ∈
        tileDescriptors (w / ts % 2 ^ 16) (h / ts % 2 ^ 16)
          (w % ts) (h % ts) ts ↔
        ((tx < w / ts % 2 ^ 16 ∧ ty < h / ts % 2 ^ 16 ∧ rwq = 1 ∧ rhq = 1) ∨
         (w % ts ≠ 0 ∧ tx = w / ts % 2 ^ 16 ∧ ty < h / ts % 2 ^ 16 ∧
           rwq = ((w % ts : ℕ) : ℚ) / (ts : ℚ) ∧ rhq = 1) ∨
         (h % ts ≠ 0 ∧ tx < w / ts % 2 ^ 16 ∧ ty = h / ts % 2 ^ 16 ∧ rwq = 1 ∧
           rhq = ((h % ts : ℕ) : ℚ) / (ts : ℚ)) ∨
         (w % ts ≠ 0 ∧ h % ts ≠ 0 ∧ tx = w / ts % 2 ^ 16 ∧
           ty = h / ts % 2 ^ 16 ∧
           rwq = ((w % ts : ℕ) : ℚ) / (ts : ℚ) ∧
           rhq = ((h % ts : ℕ) : ℚ) / (ts : ℚ))))) ∧
    (∀ (itemRect : RectQ) (info : ImageItem) (imageSize : ℕ × ℕ) (ts : ℕ),
      ts ≠ 0 →
      decomposeTiledImage itemRect info imageSize ts =
        (tileDescriptors (imageSize.1 / ts % 2 ^ 16) (imageSize.2 / ts % 2 ^ 16)
          (imageSize.1 % ts) (imageSize.2 % ts) ts).filterMap fun d =>
          addTilePrimitive itemRect (d.tx, d.ty)
            ⟨(ts : ℚ) / (imageSize.1 : ℚ) * info.stretchSize.w,
             (ts : ℚ) / (imageSize.2 : ℚ) * info.stretchSize.h⟩
            d.ratioW d.ratioH
            (decide (info.stretchSize.w < itemRect.w) &&
              ! decide (ts < imageSize.1))
            (decide (info.stretchSize.h < itemRect.h) &&
              ! decide (ts < imageSize.2))) ∧
    (∀ (itemRect : RectQ) (info : ImageItem) (imageSize : ℕ × ℕ) (ts : ℕ),
      ((decomposeTiledImage itemRect info imageSize ts).map
        fun p => p.tileOffset).Nodup) ∧
    (decomposeTiledImage ⟨0, 0, 300, 140⟩ ⟨0, ⟨300, 140⟩, ⟨0, 0⟩⟩ (300, 140) 128 =
      [⟨⟨0, 0, 128, 128⟩, ⟨128, 128⟩, (0, 0), false, false⟩,
       ⟨⟨128, 0, 128, 128⟩, ⟨128, 128⟩, (1, 0), false, false⟩,
       ⟨⟨256, 0, 44, 128⟩, ⟨44, 128⟩, (2, 0), false, false⟩,
       ⟨⟨0, 128, 128, 12⟩, ⟨128, 12⟩, (0, 1), false, false⟩,
       ⟨⟨128, 128, 128, 12⟩, ⟨128, 12⟩, (1, 1), false, false⟩,
       ⟨⟨256, 128, 44, 12⟩, ⟨44, 12⟩, (2, 1), false, false⟩]) ∧
    (∀ r ∈ [(⟨0, 0, 128, 128⟩ : RectQ), ⟨128, 0, 128, 128⟩, ⟨256, 0, 44, 128⟩,
        ⟨0, 128, 128, 12⟩, ⟨128, 128, 128, 12⟩, ⟨256, 128, 44, 12⟩],
      r.containedIn ⟨0, 0, 300, 140⟩) ∧
    List.Pairwise RectQ.interiorDisjoint
      [(⟨0, 0, 128, 128⟩ : RectQ), ⟨128, 0, 128, 128⟩, ⟨256, 0, 44, 128⟩,
       ⟨0, 128, 128, 12⟩, ⟨128, 128, 128, 12⟩, ⟨256, 128, 44, 12⟩] ∧
    (∀ p : Vec2,
      RectQ.memPt ⟨0, 0, 300, 140⟩ p ↔
        (RectQ.memPt ⟨0, 0, 128, 128⟩ p ∨ RectQ.memPt ⟨128, 0, 128, 128⟩ p ∨
         RectQ.memPt ⟨256, 0, 44, 128⟩ p ∨ RectQ.memPt ⟨0, 128, 128, 12⟩ p ∨
         RectQ.memPt ⟨128, 128, 128, 12⟩ p ∨
         RectQ.memPt ⟨256, 128, 44, 12⟩ p)) := by
  refine ⟨?_, ?_, ?_, ?_, ?_, ?_, ?_⟩
  · intro w h ts tx ty rwq rhq _
    exact mem_tileDescriptors (w / ts % 2 ^ 16) (h / ts % 2 ^ 16)
      (w % ts) (h % ts) ts tx ty rwq rhq
  · intro itemRect info imageSize ts _
    exact decomposeTiledImage_eq itemRect info imageSize ts
  · intro itemRect info imageSize ts
    exact decomposeTiledImage_offsets_nodup itemRect info imageSize ts
  · exact decomposeTiledImage_concrete
  · intro r hr
    simp only [List.mem_cons, List.not_mem_nil, or_false] at hr
    rcases hr with rfl | rfl | rfl | rfl | rfl | rfl <;>
      norm_num [RectQ.containedIn]
  · norm_num [List.pairwise_cons, RectQ.interiorDisjoint]
  · exact concreteTiles_cover

/-- Witness for C1's hypothesised parts: at tile size 128 (non-zero) the
full tile (0, 0) of a 300x140 image is among the issued calls, and the
right-edge tile of the first row is inside the item rectangle. -/
theorem claimC1_tile_grid_witness :
    (128 ≠ 0) ∧
    ((⟨0, 0, 1, 1⟩ : TileDesc) ∈
      tileDescriptors (300 / 128 % 2 ^ 16) (140 / 128 % 2 ^ 16)
        (300 % 128) (140 % 128) 128) ∧
    ((⟨256, 0, 44, 128⟩ : RectQ) ∈
      [(⟨0, 0, 128, 128⟩ : RectQ), ⟨128, 0, 128, 128⟩, ⟨256, 0, 44, 128⟩,
       ⟨0, 128, 128, 12⟩, ⟨128, 128, 128, 12⟩, ⟨256, 128, 44, 12⟩]) ∧
    (⟨256, 0, 44, 128⟩ : RectQ).containedIn ⟨0, 0, 300, 140⟩ :=
  ⟨by decide,
   (claimC1_tile_grid.1 300 140 128 0 0 1 1 (by decide)).mpr
     (Or.inl ⟨by decide, by decide, rfl, rfl⟩),
   by simp, claimC1_tile_grid.2.2.2.2.1 ⟨256, 0, 44, 128⟩ (by simp)⟩

/-- Claim C1 counterexample: for a 2^26 x 512 image with tile size 512 (an
image internally tiled along the horizontal axis, the item rectangle equal
to the stretched image), `floor(image_width / tile_size) = 2 ^ 17`, so the
claim as stated demands one primitive per full tile `tx ∈ [0, 2 ^ 17)`; but
the `as u16` cast of frame.rs:949 truncates the loop bound to
`2 ^ 17 % 2 ^ 16 = 0` and the decomposition emits no primitive at all. -/
theorem claimC1_counterexample :
    (0 < 2 ^ 26 / 512) ∧
    (2 ^ 26 / 512 = 2 ^ 17) ∧
    (2 ^ 26 / 512 % 2 ^ 16 = 0) ∧
    tileDescriptors (2 ^ 26 / 512 % 2 ^ 16) (512 / 512 % 2 ^ 16)
      (2 ^ 26 % 512) (512 % 512) 512 = [] ∧
    decomposeTiledImage ⟨0, 0, 67108864, 512⟩ ⟨0, ⟨67108864, 512⟩, ⟨0, 0⟩⟩
      (67108864, 512) 512 = [] := by
  refine ⟨by decide, by decide, by decide, by decide, ?_⟩
  decide

/-! ## Claim C2 -/

/-- Claim C2: when the image is not tiled along an axis (its dimension is at
most the tile size) but repetition is needed along that axis (the stretch
size is strictly smaller than the item rectangle on that axis), every
primitive emitted by the tile-grid decomposition carries the shader-repeat
flag for that axis, sits at tile position 0 on that axis, and spans the item
rectangle's full extent on that axis; and no two emitted primitives share a
tile position (a single primitive per tile position, not N duplicates). -/
theorem claimC2_shader_repeat :
    (∀ (itemRect : RectQ) (info : ImageItem) (w h ts : ℕ),
      w ≤ ts → info.stretchSize.w < itemRect.w →
      ∀ p ∈ decomposeTiledImage itemRect info (w, h) ts,
        p.shaderRepeatX = true ∧ p.tileOffset.1 = 0 ∧
        p.rect.x = itemRect.x ∧ p.rect.w = itemRect.w) ∧
    (∀ (itemRect : RectQ) (info : ImageItem) (w h ts : ℕ),
      h ≤ ts → info.stretchSize.h < itemRect.h →
      ∀ p ∈ decomposeTiledImage itemRect info (w, h) ts,
        p.shaderRepeatY = true ∧ p.tileOffset.2 = 0 ∧
        p.rect.y = itemRect.y ∧ p.rect.h = itemRect.h) ∧
    (∀ (itemRect : RectQ) (info : ImageItem) (imageSize : ℕ × ℕ) (ts : ℕ),
      ((decomposeTiledImage itemRect info imageSize ts).map
        fun p => p.tileOffset).Nodup) := by
  have hdivle : ∀ w ts : ℕ, w ≤ ts → w / ts ≤ 1 := by
    intro w ts h1
    rcases Nat.eq_zero_or_pos ts with rfl | hts
    · simp
    · calc w / ts ≤ ts / ts := Nat.div_le_div_right h1
        _ = 1 := Nat.div_self hts
  have hmodz : ∀ w ts : ℕ, w ≤ ts → w % ts ≠ 0 → w / ts = 0 := by
    intro w ts h1 hm
    have hlt : w < ts := by
      rcases Nat.lt_or_ge w ts with hlt | hge
      · exact hlt
      · have heq : w = ts := le_antisymm h1 hge
        subst heq
        exact absurd (Nat.mod_self w) hm
    exact Nat.div_eq_of_lt hlt
  refine ⟨?_, ?_, ?_⟩
  · intro itemRect info w h ts h1 h2 p hp
    rw [decomposeTiledImage_eq, List.mem_filterMap] at hp
    obtain ⟨d, hd, hadd⟩ := hp
    obtain ⟨tx, ty, rwq, rhq⟩ := d
    rw [mem_tileDescriptors] at hd
    dsimp only at hd hadd
    have hdiv := hdivle w ts h1
    have htrunc : w / ts % 2 ^ 16 = w / ts :=
      Nat.mod_eq_of_lt (Nat.lt_of_le_of_lt hdiv (by norm_num))
    rw [htrunc] at hd
    have htx : tx = 0 := by
      rcases hd with ⟨ha, _⟩ | ⟨hm, ha, _⟩ | ⟨_, ha, _⟩ | ⟨hm, _, ha, _⟩
      · omega
      · have := hmodz w ts h1 hm
        omega
      · omega
      · have := hmodz w ts h1 hm
        omega
    rw [show (decide (info.stretchSize.w < itemRect.w) && ! decide (ts < w)) = true
      from by simp [h2, not_lt.mpr h1]] at hadd
    exact addTilePrimitive_shaderRepeatX itemRect (tx, ty) _ rwq rhq _ p htx hadd
  · intro itemRect info w h ts h1 h2 p hp
    rw [decomposeTiledImage_eq, List.mem_filterMap] at hp
    obtain ⟨d, hd, hadd⟩ := hp
    obtain ⟨tx, ty, rwq, rhq⟩ := d
    rw [mem_tileDescriptors] at hd
    dsimp only at hd hadd
    have hdiv := hdivle h ts h1
    have htrunc : h / ts % 2 ^ 16 = h / ts :=
      Nat.mod_eq_of_lt (Nat.lt_of_le_of_lt hdiv (by norm_num))
    rw [htrunc] at hd
    have hty : ty = 0 := by
      rcases hd with ⟨_, ha, _⟩ | ⟨_, _, ha, _⟩ | ⟨hm, _, ha, _⟩ | ⟨_, hm, _, ha, _⟩
      · omega
      · omega
      · have := hmodz h ts h1 hm
        omega
      · have := hmodz h ts h1 hm
        omega
    rw [show (decide (info.stretchSize.h < itemRect.h) && ! decide (ts < h)) = true
      from by simp [h2, not_lt.mpr h1]] at hadd
    exact addTilePrimitive_shaderRepeatY itemRect (tx, ty) _ rwq rhq _ p hty hadd
  · intro itemRect info imageSize ts
    exact decomposeTiledImage_offsets_nodup itemRect info imageSize ts

/-- Witness for C2 at the spec's example: image 20x400, tile size 128,
stretch width 200, item rectangle 400 wide — the horizontal axis is not
tile-split, so every emitted primitive is shader-repeated horizontally at
tile column 0 with the item rectangle's full width. -/
theorem claimC2_shader_repeat_witness :
    (20 ≤ 128) ∧
    ((⟨1, ⟨200, 400⟩, ⟨0, 0⟩⟩ : ImageItem).stretchSize.w <
      (⟨0, 0, 400, 400⟩ : RectQ).w) ∧
    (∀ p ∈ decomposeTiledImage ⟨0, 0, 400, 400⟩ ⟨1, ⟨200, 400⟩, ⟨0, 0⟩⟩
        (20, 400) 128,
      p.shaderRepeatX = true ∧ p.tileOffset.1 = 0 ∧
      p.rect.x = (⟨0, 0, 400, 400⟩ : RectQ).x ∧
      p.rect.w = (⟨0, 0, 400, 400⟩ : RectQ).w) :=
  ⟨by decide, by decide,
   claimC2_shader_repeat.1 ⟨0, 0, 400, 400⟩ ⟨1, ⟨200, 400⟩, ⟨0, 0⟩⟩ 20 400 128
     (by decide) (by decide)⟩
